import Mathlib

/-!
The `start` entry point of the local API gateway (`src/start.go`).

`start` is glue code: it opens the log destination, parses the template, checks
the container daemon, builds one runtime per function, hands each runtime to the
router, optionally mounts a static directory, prints a mount summary and starts
the HTTP listener.

The collaborators that live outside `src/start.go` (the template loader, the
docker check, `NewRuntime`, the router, `getWorkingDir`, the file system) are
taken as parameters, bundled in `World`.  The embedding of `start` is a pure
function from a world and the command-line options to the run it produces: the
list of externally visible actions, in program order, and how the run ends.
-/

set_option autoImplicit false

namespace SamLocal

/-! ## Data model -/

/-- An `io.Writer` as `start` uses it: the process standard error stream, or the
log file created from the `log` option (identified by its path). -/
inductive Writer where
  | osStderr
  | logFile (path : String)
  deriving DecidableEq

/-- The fields of the goformation record `AWSServerlessFunction` that `start` reads
(`Handler`, `Runtime`), and `CodeUri` standing for the rest of the record, which
`start` only passes along. -/
structure AWSServerlessFunction where
  Handler : String
  Runtime : String
  CodeUri : String
  deriving DecidableEq

/-- The options record `NewRuntimeOpt` built at lines 62-70. -/
structure NewRuntimeOpt where
  LogicalID : String
  Function : AWSServerlessFunction
  Logger : Writer
  EnvOverrideFile : String
  Basedir : String
  CheckWorkingDirExist : Bool
  DebugPort : String
  deriving DecidableEq

/-- An error returned by `NewRuntime`.  Go compares errors by identity, so the
sentinel `ErrRuntimeNotSupported` is a constructor of its own; every other error
carries the text of its `Error()` method. -/
inductive RuntimeError where
  | ErrRuntimeNotSupported
  | other (msg : String)
  deriving DecidableEq

/-- An error returned by `AddFunction` of the router: the sentinel
`router.ErrNoEventsFound`, or any other error (with the text of `Error()`). -/
inductive RouterError where
  | ErrNoEventsFound
  | other (msg : String)
  deriving DecidableEq

/-- One element of the `Mounts()` list of the router, as line 116 reads it:
`mount.Function`, `mount.Path` and the result of `mount.Methods()`. -/
structure ServerlessRouterMount where
  Function : AWSServerlessFunction
  Path : String
  Methods : List String
  deriving DecidableEq

/-- The parsed template.  `functions` is the result of
`GetAllAWSServerlessFunctionResources()`, a Go map from logical name to function,
listed in the order in which the `range` loop of line 59 visits it. -/
structure Template where
  functions : List (String × AWSServerlessFunction)
  deriving DecidableEq

/-- The string options `start` reads from the `cli.Context`: `c.String("log")`,
`c.String("template")`, and so on. -/
structure Context where
  log : String
  template : String
  dockerVolumeBasedir : String
  envVars : String
  debugPort : String
  staticDir : String
  host : String
  port : String
  deriving DecidableEq

/-- Everything `start` calls that is defined outside `src/start.go`.  `R` is the
state of the router (`*router.ServerlessRouter`), `Rt` the runtime value returned
by `NewRuntime`.  Calls that can fail return `Except`, the error being the text
of the Go error (or a `RuntimeError` / `RouterError` where `start` compares it
with a sentinel). -/
structure World (R Rt : Type) where
  /-- Result of `os.Create(path)`; the file is identified by its path. -/
  osCreate : String → Except String Unit
  /-- The function `getTemplateFilename` of the main package. -/
  getTemplateFilename : String → String
  /-- The call `goformation.Open(filename)`. -/
  goformationOpen : String → Except String Template
  /-- The function `getDockerVersion` of the main package. -/
  getDockerVersion : Except String String
  /-- The standard library function `filepath.Dir`. -/
  filepathDir : String → String
  /-- The constructor `NewRuntime` of the main package. -/
  NewRuntime : NewRuntimeOpt → Except RuntimeError Rt
  /-- The constructor `router.NewServerlessRouter()`. -/
  NewServerlessRouter : R
  /-- The method `mux.AddFunction(&function, runt.InvokeHTTP())`: the router after
  the call and the error it returned, if any. -/
  AddFunction : R → AWSServerlessFunction → Rt → R × Option RouterError
  /-- The method `mux.Mounts()`. -/
  Mounts : R → List ServerlessRouterMount
  /-- The method `mux.AddStaticDir(dir, mountPoint)`. -/
  AddStaticDir : R → String → String → R
  /-- The function `getWorkingDir(basedir, dir, checkWorkingDirExist)` of the main
  package. -/
  getWorkingDir : String → String → Bool → Except String String

/-- An externally visible action of `start`.  `logPrintf` and `logFatalf` carry
the formatted message (the timestamp and newline handling of the `log` package are
not modelled); `logFatalf` also ends the process with status 1. -/
inductive Event (Rt : Type) where
  | osCreate (path : String)
  | logSetOutput (w : Writer)
  | goformationOpen (filename : String)
  | getDockerVersion
  | newServerlessRouter
  | newRuntime (opt : NewRuntimeOpt)
  | addFunction (function : AWSServerlessFunction) (runt : Rt)
  | getWorkingDir (basedir dir : String) (checkWorkingDirExist : Bool)
  | addStaticDir (dir mountPoint : String)
  | logPrintf (msg : String)
  | logFatalf (msg : String)
  | fprintf (w : Writer) (msg : String)
  | osExit (code : Nat)
  | listenAndServe (addr : String)
  deriving DecidableEq

/-- How a run of `start` ends: the process exits with a status code, or
`http.ListenAndServe` is called on an address with the router as its handler
(line 128).  A run is followed up to and including that call: `serving` stands
for the call having been made.  What line 128 does if the call ever returns,
`log.Fatal` of the error it returned and exit with status 1, lies after the last
action of the trace and is not part of a `Run`. -/
inductive Outcome (R : Type) where
  | exited (code : Nat)
  | serving (addr : String) (mux : R)
  deriving DecidableEq

/-- A run of `start`: its actions in program order, and its outcome. -/
structure Run (R Rt : Type) where
  trace : List (Event Rt)
  outcome : Outcome R

/-! ## The program -/

section Program

variable {R Rt : Type}

/-- Lines 19-29: choose the diagnostic writer `stderr`.  Returns the writer and
the actions performed, or, when the log file cannot be created, the actions of
the fatal path. -/
def setupLogger (w : World R Rt) (c : Context) :
    Except (List (Event Rt)) (Writer × List (Event Rt)) :=
  let logarg := c.log
  if logarg.length > 0 then
    match w.osCreate logarg with
    | .ok _ =>
      .ok (.logFile logarg, [.osCreate logarg, .logSetOutput (.logFile logarg)])
    | .error err =>
      .error [.osCreate logarg,
        .logFatalf ("Failed to open log file " ++ c.log ++ ": " ++ err ++ "\n")]
  else
    .ok (.osStderr, [])

/-- Lines 47-52: the base directory and the `checkWorkingDirExist` flag. -/
def chooseBaseDir (w : World R Rt) (c : Context) (filename : String) : String × Bool :=
  let baseDir := c.dockerVolumeBasedir
  if baseDir = "" then (w.filepathDir filename, true) else (baseDir, false)

/-- Lines 62-70: the options passed to `NewRuntime` for one function. -/
def runtimeOpt (c : Context) (stderr : Writer) (baseDir : String) (check : Bool)
    (name : String) (function : AWSServerlessFunction) : NewRuntimeOpt where
  LogicalID := name
  Function := function
  Logger := stderr
  EnvOverrideFile := c.envVars
  Basedir := baseDir
  CheckWorkingDirExist := check
  DebugPort := c.debugPort

/-- Line 75: the message for an unsupported runtime. -/
def unsupportedRuntimeMsg (name : String) (function : AWSServerlessFunction) : String :=
  "Ignoring " ++ name ++ " (" ++ function.Handler ++ ") due to unsupported runtime ("
    ++ function.Runtime ++ ")\n"

/-- Line 78: the message for any other runtime construction error. -/
def runtimeInitErrorMsg (name : String) (function : AWSServerlessFunction)
    (err : String) : String :=
  "Ignoring " ++ name ++ " (" ++ function.Handler ++ ") due to " ++ function.Runtime
    ++ " runtime init error: " ++ err ++ "\n"

/-- Line 86: the message for a function without API event sources. -/
def noEventsMsg (name : String) (function : AWSServerlessFunction) : String :=
  "Ignoring " ++ name ++ " (" ++ function.Handler ++ ") as no API event sources are defined"

/-- Lines 59-90, one iteration of the loop: the router after the iteration and
the actions of the iteration. -/
def loopBody (w : World R Rt) (c : Context) (stderr : Writer) (baseDir : String)
    (check : Bool) (mux : R) (name : String) (function : AWSServerlessFunction) :
    R × List (Event Rt) :=
  let opt := runtimeOpt c stderr baseDir check name function
  match w.NewRuntime opt with
  | .error err =>
    match err with
    | .ErrRuntimeNotSupported =>
      (mux, [.newRuntime opt, .logPrintf (unsupportedRuntimeMsg name function)])
    | .other msg =>
      (mux, [.newRuntime opt, .logPrintf (runtimeInitErrorMsg name function msg)])
  | .ok runt =>
    match w.AddFunction mux function runt with
    | (mux1, some err) =>
      match err with
      | .ErrNoEventsFound =>
        (mux1, [.newRuntime opt, .addFunction function runt,
          .logPrintf (noEventsMsg name function)])
      | .other _ =>
        (mux1, [.newRuntime opt, .addFunction function runt])
    | (mux1, none) =>
      (mux1, [.newRuntime opt, .addFunction function runt])

/-- Lines 59-90, the whole loop over the functions of the template, in iteration
order: the router after the loop and the actions of all iterations. -/
def functionLoop (w : World R Rt) (c : Context) (stderr : Writer) (baseDir : String)
    (check : Bool) : R → List (String × AWSServerlessFunction) → R × List (Event Rt)
  | mux, [] => (mux, [])
  | mux, (name, function) :: rest =>
    let step := loopBody w c stderr baseDir check mux name function
    let tail := functionLoop w c stderr baseDir check step.1 rest
    (tail.1, step.2 ++ tail.2)

/-- Line 95. -/
def noFunctionsMsg : String :=
  "ERROR: No Serverless functions were found in your SAM template.\n"

/-- Line 98. -/
def noneMountedMsg : String :=
  "ERROR: None of the Serverless functions in your SAM template were able to be mounted. See above for errors.\n"

/-- Lines 105-113: the optional static directory.  Returns the router after the
block and the actions of the block. -/
def mountStatic (w : World R Rt) (c : Context) (baseDir : String) (check : Bool)
    (mux : R) : R × List (Event Rt) :=
  if c.staticDir ≠ "" then
    match w.getWorkingDir baseDir c.staticDir check with
    | .error err =>
      (mux, [.getWorkingDir baseDir c.staticDir check,
        .logPrintf ("WARNING: Could not mount static files: " ++ err ++ "\n")])
    | .ok static =>
      (w.AddStaticDir mux static "/",
        [.getWorkingDir baseDir c.staticDir check,
         .fprintf .osStderr ("Mounting static files from " ++ static ++ " at /\n"),
         .addStaticDir static "/"])
  else
    (mux, [])

/-- The verb `%s` of the Go package `fmt` applied to a slice of strings: the elements
separated by one space, between square brackets. -/
def fmtStrings (xs : List String) : String :=
  "[" ++ " ".intercalate xs ++ "]"

/-- Line 116: the text `msg` for one mount. -/
def mountMsg (c : Context) (mount : ServerlessRouterMount) : String :=
  "Mounting " ++ mount.Function.Handler ++ " (" ++ mount.Function.Runtime ++ ") at http://"
    ++ c.host ++ ":" ++ c.port ++ mount.Path ++ " " ++ fmtStrings mount.Methods

/-- Lines 115-118: one line per mount, written to the process standard error. -/
def mountSummary (c : Context) (mounts : List ServerlessRouterMount) : List (Event Rt) :=
  mounts.map (fun mount => .fprintf .osStderr (mountMsg c mount ++ "\n"))

/-- Lines 120-125: the closing banner. -/
def banner (stderr : Writer) : List (Event Rt) :=
  [.fprintf stderr "\n",
   .fprintf stderr "You can now browse to the above endpoints to invoke your functions.\n",
   .fprintf stderr "You do not need to restart/reload SAM CLI while working on your functions,\n",
   .fprintf stderr "changes will be reflected instantly/automatically. You only need to restart\n",
   .fprintf stderr "SAM CLI if you update your AWS SAM template.\n",
   .fprintf stderr "\n"]

/-- Line 128: the listener address. -/
def listenAddr (c : Context) : String :=
  c.host ++ ":" ++ c.port

/-- Lines 31-44: the actions up to and including the successful docker check. -/
def connectedTrace (filename dockerVersion : String) : List (Event Rt) :=
  [.goformationOpen filename, .getDockerVersion,
   .logPrintf ("Connected to Docker " ++ dockerVersion)]

/-- Lines 92-128: everything after the loop, given the router `mux` the loop
produced and the actions `tr` performed so far. -/
def afterLoop (w : World R Rt) (c : Context) (stderr : Writer) (baseDir : String)
    (check : Bool) (functions : List (String × AWSServerlessFunction)) (mux : R)
    (tr : List (Event Rt)) : Run R Rt :=
  if (w.Mounts mux).length < 1 then
    if functions.length < 1 then
      ⟨tr ++ [.fprintf stderr noFunctionsMsg, .osExit 1], .exited 1⟩
    else
      ⟨tr ++ [.fprintf stderr noneMountedMsg, .osExit 1], .exited 1⟩
  else
    let static := mountStatic w c baseDir check mux
    ⟨tr ++ [.fprintf stderr "\n"] ++ static.2 ++ mountSummary c (w.Mounts static.1)
        ++ banner stderr ++ [.listenAndServe (listenAddr c)],
      .serving (listenAddr c) static.1⟩

/-- The function `start` of `src/start.go`. -/
def start (w : World R Rt) (c : Context) : Run R Rt :=
  match setupLogger w c with
  | .error tr => ⟨tr, .exited 1⟩
  | .ok (stderr, tr0) =>
    let filename := w.getTemplateFilename c.template
    match w.goformationOpen filename with
    | .error err =>
      ⟨tr0 ++ [.goformationOpen filename,
        .logFatalf ("Failed to parse template: " ++ err ++ "\n")], .exited 1⟩
    | .ok template =>
      match w.getDockerVersion with
      | .error err =>
        ⟨tr0 ++ [.goformationOpen filename, .getDockerVersion,
          .logPrintf "Running AWS SAM projects locally requires Docker. Have you got it installed?\n",
          .logPrintf (err ++ "\n"),
          .osExit 1], .exited 1⟩
      | .ok dockerVersion =>
        let dir := chooseBaseDir w c filename
        let functions := template.functions
        let loop := functionLoop w c stderr dir.1 dir.2 w.NewServerlessRouter functions
        afterLoop w c stderr dir.1 dir.2 functions loop.1
          (tr0 ++ connectedTrace filename dockerVersion ++ [.newServerlessRouter] ++ loop.2)

end Program

/-! ## Observations on traces -/

section Observations
variable {Rt : Type}

/-- The options of a `NewRuntime` call, for an action that is one. -/
def Event.newRuntimeOpt? : Event Rt → Option NewRuntimeOpt
  | .newRuntime opt => some opt
  | _ => none

/-- The arguments of an `AddFunction` call, for an action that is one. -/
def Event.addFunctionArgs? : Event Rt → Option (AWSServerlessFunction × Rt)
  | .addFunction function runt => some (function, runt)
  | _ => none

/-- The `NewRuntime` calls of a trace, in order. -/
def newRuntimeCalls (tr : List (Event Rt)) : List NewRuntimeOpt :=
  tr.filterMap Event.newRuntimeOpt?

/-- The `AddFunction` calls of a trace, in order. -/
def addFunctionCalls (tr : List (Event Rt)) : List (AWSServerlessFunction × Rt) :=
  tr.filterMap Event.addFunctionArgs?

/-- The actions that `start` performs only from line 92 on, once the loop is
over, in a run that got past the docker check: writes through `fmt.Fprintf`,
`os.Exit`, `getWorkingDir`, `AddStaticDir` and `http.ListenAndServe`. -/
def Event.afterLoopOnly : Event Rt → Bool
  | .fprintf _ _ => true
  | .osExit _ => true
  | .getWorkingDir _ _ _ => true
  | .addStaticDir _ _ => true
  | .listenAndServe _ => true
  | _ => false

/-- The destination and text of an `fmt.Fprintf` write, for an action that is
one. -/
def Event.fprintfArgs? : Event Rt → Option (Writer × String)
  | .fprintf wr msg => some (wr, msg)
  | _ => none

/-- The `fmt.Fprintf` writes of a trace, in order. -/
def fprintfWrites (tr : List (Event Rt)) : List (Writer × String) :=
  tr.filterMap Event.fprintfArgs?

/-- The actions that `start` performs only from line 47 on, once the docker
check has succeeded: creating the router, `NewRuntime`, `AddFunction`,
`getWorkingDir`, `AddStaticDir`, writes through `fmt.Fprintf` and
`http.ListenAndServe`. -/
def Event.afterDockerCheck : Event Rt → Bool
  | .newServerlessRouter => true
  | .newRuntime _ => true
  | .addFunction _ _ => true
  | .getWorkingDir _ _ _ => true
  | .addStaticDir _ _ => true
  | .fprintf _ _ => true
  | .listenAndServe _ => true
  | _ => false

/-- The actions that `start` performs only from line 104 on, once the mount
check has passed: `getWorkingDir`, `AddStaticDir` and `http.ListenAndServe`. -/
def Event.afterMountCheck : Event Rt → Bool
  | .getWorkingDir _ _ _ => true
  | .addStaticDir _ _ => true
  | .listenAndServe _ => true
  | _ => false

/-- The arguments of a `getWorkingDir` call, for an action that is one. -/
def Event.getWorkingDirArgs? : Event Rt → Option (String × String × Bool)
  | .getWorkingDir basedir dir check => some (basedir, dir, check)
  | _ => none

/-- The `getWorkingDir` calls of a trace, in order. -/
def getWorkingDirCalls (tr : List (Event Rt)) : List (String × String × Bool) :=
  tr.filterMap Event.getWorkingDirArgs?

end Observations

/-! ## A concrete world -/

/-- A router state for the examples: the list of mounts. -/
abbrev DemoRouter : Type := List ServerlessRouterMount

/-- A function with an API event. -/
def helloFn : AWSServerlessFunction := ⟨"app.handler", "nodejs6.10", "./hello"⟩

/-- A function whose runtime is not supported. -/
def cobolFn : AWSServerlessFunction := ⟨"main", "cobol", "./cobol"⟩

/-- A function whose runtime construction fails for another reason. -/
def brokenFn : AWSServerlessFunction := ⟨"broken.handler", "python3.6", "./missing"⟩

/-- A function without API event sources. -/
def cronFn : AWSServerlessFunction := ⟨"cron.handler", "python3.6", "./cron"⟩

/-- A function whose route collides with an existing one. -/
def clashFn : AWSServerlessFunction := ⟨"clash.handler", "nodejs6.10", "./clash"⟩

/-- A world in which every collaborator succeeds, except that `NewRuntime`
rejects the runtime `cobol` and the code location `./missing`, and `AddFunction`
finds no events for `./cron` and reports a conflict for `./clash`. -/
def demoWorld (fns : List (String × AWSServerlessFunction)) : World DemoRouter String where
  osCreate := fun _ => .ok ()
  getTemplateFilename := fun t => if t = "" then "template.yaml" else t
  goformationOpen := fun _ => .ok ⟨fns⟩
  getDockerVersion := .ok "17.09"
  filepathDir := fun _ => "."
  NewRuntime := fun opt =>
    if opt.Function.Runtime = "cobol" then .error .ErrRuntimeNotSupported
    else if opt.Function.CodeUri = "./missing" then .error (.other "no such directory")
    else .ok opt.LogicalID
  NewServerlessRouter := []
  AddFunction := fun mux f _ =>
    if f.CodeUri = "./cron" then (mux, some .ErrNoEventsFound)
    else if f.CodeUri = "./clash" then (mux, some (.other "route conflict"))
    else (mux ++ [⟨f, "/" ++ f.Handler, ["GET"]⟩], none)
  Mounts := fun mux => mux
  AddStaticDir := fun mux _ _ => mux
  getWorkingDir := fun base dir _ =>
    if dir = "nowhere" then .error "not found" else .ok (base ++ "/" ++ dir)

/-- Options for the examples: defaults, with host and port set. -/
def demoCtx : Context where
  log := ""
  template := ""
  dockerVolumeBasedir := ""
  envVars := ""
  debugPort := ""
  staticDir := ""
  host := "127.0.0.1"
  port := "3000"

/-- A template with one function of each kind. -/
def demoFns : List (String × AWSServerlessFunction) :=
  [("Hello", helloFn), ("Cobol", cobolFn), ("Cron", cronFn), ("Clash", clashFn),
   ("Broken", brokenFn)]

/-- A template with a function that mounts and one whose route is reported as a
conflict by `AddFunction`. -/
def conflictFns : List (String × AWSServerlessFunction) :=
  [("Hello", helloFn), ("Clash", clashFn)]

/-- The mount the example router creates for `helloFn`. -/
def helloMount : ServerlessRouterMount := ⟨helloFn, "/app.handler", ["GET"]⟩

/-- A world whose template does not parse. -/
def badTemplateWorld : World DemoRouter String :=
  { demoWorld [] with goformationOpen := fun _ => .error "yaml: line 3: could not find expected key" }

/-- A world without a reachable docker daemon. -/
def noDockerWorld : World DemoRouter String :=
  { demoWorld demoFns with getDockerVersion := .error "Cannot connect to the Docker daemon" }

/-- Options with a static directory that resolves. -/
def staticCtx : Context := { demoCtx with staticDir := "public" }

/-- Options with a static directory that does not resolve. -/
def missingStaticCtx : Context := { demoCtx with staticDir := "nowhere" }

/-- Options with an explicit `docker-volume-basedir`. -/
def volumeCtx : Context := { demoCtx with dockerVolumeBasedir := "/vol" }

/-- Options with an explicit `docker-volume-basedir` and a static directory. -/
def volumeStaticCtx : Context :=
  { demoCtx with dockerVolumeBasedir := "/vol", staticDir := "public" }

/-! ## Lemmas about the program -/

section Lemmas
variable {R Rt : Type}

theorem start_eq_afterLoop (w : World R Rt) (c : Context) (stderr : Writer)
    (tr0 : List (Event Rt)) (tpl : Template) (v : String)
    (hlog : setupLogger w c = .ok (stderr, tr0))
    (hopen : w.goformationOpen (w.getTemplateFilename c.template) = .ok tpl)
    (hdock : w.getDockerVersion = .ok v) :
    start w c =
      afterLoop w c stderr (chooseBaseDir w c (w.getTemplateFilename c.template)).1
        (chooseBaseDir w c (w.getTemplateFilename c.template)).2 tpl.functions
        (functionLoop w c stderr (chooseBaseDir w c (w.getTemplateFilename c.template)).1
          (chooseBaseDir w c (w.getTemplateFilename c.template)).2
          w.NewServerlessRouter tpl.functions).1
        (tr0 ++ connectedTrace (w.getTemplateFilename c.template) v ++ [.newServerlessRouter]
          ++ (functionLoop w c stderr (chooseBaseDir w c (w.getTemplateFilename c.template)).1
            (chooseBaseDir w c (w.getTemplateFilename c.template)).2
            w.NewServerlessRouter tpl.functions).2) := by
  simp only [start, hlog, hopen, hdock]

theorem mem_setupLogger (w : World R Rt) (c : Context) (stderr : Writer)
    (tr0 : List (Event Rt)) (hlog : setupLogger w c = .ok (stderr, tr0))
    (ev : Event Rt) (hev : ev ∈ tr0) :
    (∃ p, ev = .osCreate p) ∨ (∃ x, ev = .logSetOutput x) := by
  simp only [setupLogger] at hlog
  split at hlog
  · split at hlog
    · simp only [Except.ok.injEq, Prod.mk.injEq] at hlog
      obtain ⟨_, rfl⟩ := hlog
      simp only [List.mem_cons, List.mem_singleton, List.not_mem_nil, or_false] at hev
      rcases hev with rfl | rfl
      · exact Or.inl ⟨_, rfl⟩
      · exact Or.inr ⟨_, rfl⟩
    · cases hlog
  · simp only [Except.ok.injEq, Prod.mk.injEq] at hlog
    obtain ⟨_, rfl⟩ := hlog
    cases hev

/-- The log line of an iteration whose runtime could not be built. -/
theorem loopBody_error (w : World R Rt) (c : Context) (stderr : Writer)
    (baseDir : String) (check : Bool) (mux : R) (name : String)
    (function : AWSServerlessFunction) (err : RuntimeError)
    (h : w.NewRuntime (runtimeOpt c stderr baseDir check name function) = .error err) :
    loopBody w c stderr baseDir check mux name function =
      (mux, [.newRuntime (runtimeOpt c stderr baseDir check name function),
        .logPrintf (match err with
          | .ErrRuntimeNotSupported => unsupportedRuntimeMsg name function
          | .other msg => runtimeInitErrorMsg name function msg)]) := by
  cases err <;> simp only [loopBody, h]

theorem loopBody_ok (w : World R Rt) (c : Context) (stderr : Writer)
    (baseDir : String) (check : Bool) (mux : R) (name : String)
    (function : AWSServerlessFunction) (runt : Rt)
    (h : w.NewRuntime (runtimeOpt c stderr baseDir check name function) = .ok runt) :
    loopBody w c stderr baseDir check mux name function =
      ((w.AddFunction mux function runt).1,
        [.newRuntime (runtimeOpt c stderr baseDir check name function),
         .addFunction function runt] ++
        (match (w.AddFunction mux function runt).2 with
          | some .ErrNoEventsFound => [.logPrintf (noEventsMsg name function)]
          | _ => [])) := by
  simp only [loopBody, h]
  rcases w.AddFunction mux function runt with ⟨mux1, _ | err⟩
  · rfl
  · cases err <;> rfl

theorem functionLoop_append (w : World R Rt) (c : Context) (stderr : Writer)
    (baseDir : String) (check : Bool) (mux : R)
    (xs ys : List (String × AWSServerlessFunction)) :
    functionLoop w c stderr baseDir check mux (xs ++ ys) =
      ((functionLoop w c stderr baseDir check
          (functionLoop w c stderr baseDir check mux xs).1 ys).1,
        (functionLoop w c stderr baseDir check mux xs).2 ++
          (functionLoop w c stderr baseDir check
            (functionLoop w c stderr baseDir check mux xs).1 ys).2) := by
  induction xs generalizing mux with
  | nil => simp [functionLoop]
  | cons x xs ih =>
    obtain ⟨name, function⟩ := x
    simp only [List.cons_append, functionLoop, List.append_eq, ih, List.append_assoc]

theorem newRuntimeCalls_append (a b : List (Event Rt)) :
    newRuntimeCalls (a ++ b) = newRuntimeCalls a ++ newRuntimeCalls b := by
  simp [newRuntimeCalls]

theorem addFunctionCalls_append (a b : List (Event Rt)) :
    addFunctionCalls (a ++ b) = addFunctionCalls a ++ addFunctionCalls b := by
  simp [addFunctionCalls]

theorem newRuntimeCalls_loopBody (w : World R Rt) (c : Context) (stderr : Writer)
    (baseDir : String) (check : Bool) (mux : R) (name : String)
    (function : AWSServerlessFunction) :
    newRuntimeCalls (loopBody w c stderr baseDir check mux name function).2 =
      [runtimeOpt c stderr baseDir check name function] := by
  cases h : w.NewRuntime (runtimeOpt c stderr baseDir check name function) with
  | error err =>
    rw [loopBody_error w c stderr baseDir check mux name function err h]
    simp [newRuntimeCalls, Event.newRuntimeOpt?]
  | ok runt =>
    rw [loopBody_ok w c stderr baseDir check mux name function runt h]
    rcases (w.AddFunction mux function runt).2 with _ | err
    · simp [newRuntimeCalls, Event.newRuntimeOpt?]
    · cases err <;> simp [newRuntimeCalls, Event.newRuntimeOpt?]

theorem addFunctionCalls_loopBody (w : World R Rt) (c : Context) (stderr : Writer)
    (baseDir : String) (check : Bool) (mux : R) (name : String)
    (function : AWSServerlessFunction) :
    addFunctionCalls (loopBody w c stderr baseDir check mux name function).2 =
      (match w.NewRuntime (runtimeOpt c stderr baseDir check name function) with
        | .ok runt => [(function, runt)]
        | .error _ => []) := by
  cases h : w.NewRuntime (runtimeOpt c stderr baseDir check name function) with
  | error err =>
    rw [loopBody_error w c stderr baseDir check mux name function err h]
    simp [addFunctionCalls, Event.addFunctionArgs?]
  | ok runt =>
    rw [loopBody_ok w c stderr baseDir check mux name function runt h]
    rcases (w.AddFunction mux function runt).2 with _ | err
    · simp [addFunctionCalls, Event.addFunctionArgs?]
    · cases err <;> simp [addFunctionCalls, Event.addFunctionArgs?]

theorem newRuntimeCalls_functionLoop (w : World R Rt) (c : Context) (stderr : Writer)
    (baseDir : String) (check : Bool) (mux : R)
    (fns : List (String × AWSServerlessFunction)) :
    newRuntimeCalls (functionLoop w c stderr baseDir check mux fns).2 =
      fns.map (fun nf => runtimeOpt c stderr baseDir check nf.1 nf.2) := by
  induction fns generalizing mux with
  | nil => rfl
  | cons x xs ih =>
    obtain ⟨name, function⟩ := x
    simp only [functionLoop, newRuntimeCalls_append, newRuntimeCalls_loopBody, ih,
      List.map_cons, List.singleton_append]

theorem addFunctionCalls_functionLoop (w : World R Rt) (c : Context) (stderr : Writer)
    (baseDir : String) (check : Bool) (mux : R)
    (fns : List (String × AWSServerlessFunction)) :
    addFunctionCalls (functionLoop w c stderr baseDir check mux fns).2 =
      fns.filterMap (fun nf =>
        match w.NewRuntime (runtimeOpt c stderr baseDir check nf.1 nf.2) with
        | .ok runt => some (nf.2, runt)
        | .error _ => none) := by
  induction fns generalizing mux with
  | nil => rfl
  | cons x xs ih =>
    obtain ⟨name, function⟩ := x
    simp only [functionLoop, addFunctionCalls_append, addFunctionCalls_loopBody, ih,
      List.filterMap_cons]
    cases w.NewRuntime (runtimeOpt c stderr baseDir check name function) <;> rfl

/-- Every action of the loop is a `NewRuntime` call, an `AddFunction` call or a
log line. -/
theorem mem_functionLoop (w : World R Rt) (c : Context) (stderr : Writer)
    (baseDir : String) (check : Bool) (mux : R)
    (fns : List (String × AWSServerlessFunction)) (ev : Event Rt)
    (hev : ev ∈ (functionLoop w c stderr baseDir check mux fns).2) :
    (∃ opt, ev = .newRuntime opt) ∨ (∃ f runt, ev = .addFunction f runt)
      ∨ (∃ msg, ev = .logPrintf msg) := by
  induction fns generalizing mux with
  | nil => cases hev
  | cons x xs ih =>
    obtain ⟨name, function⟩ := x
    simp only [functionLoop, List.mem_append] at hev
    rcases hev with hev | hev
    · cases h : w.NewRuntime (runtimeOpt c stderr baseDir check name function) with
      | error err =>
        rw [loopBody_error w c stderr baseDir check mux name function err h] at hev
        simp only [List.mem_cons, List.mem_singleton, List.not_mem_nil, or_false] at hev
        rcases hev with rfl | rfl
        · exact Or.inl ⟨_, rfl⟩
        · exact Or.inr (Or.inr ⟨_, rfl⟩)
      | ok runt =>
        rw [loopBody_ok w c stderr baseDir check mux name function runt h] at hev
        generalize (w.AddFunction mux function runt).2 = r at hev
        simp only [List.mem_append, List.mem_cons, List.mem_singleton, List.not_mem_nil,
          or_false] at hev
        rcases hev with (rfl | rfl) | hev
        · exact Or.inl ⟨_, rfl⟩
        · exact Or.inr (Or.inl ⟨_, _, rfl⟩)
        · rcases r with _ | err
          · cases hev
          · cases err
            · simp only [List.mem_singleton] at hev
              exact Or.inr (Or.inr ⟨_, hev⟩)
            · cases hev
    · exact ih _ hev

theorem newRuntimeCalls_mountSummary (c : Context) (ms : List ServerlessRouterMount) :
    newRuntimeCalls (mountSummary c ms : List (Event Rt)) = [] := by
  induction ms with
  | nil => rfl
  | cons m ms ih =>
    simp [newRuntimeCalls, mountSummary, Event.newRuntimeOpt?]

theorem addFunctionCalls_mountSummary (c : Context) (ms : List ServerlessRouterMount) :
    addFunctionCalls (mountSummary c ms : List (Event Rt)) = [] := by
  induction ms with
  | nil => rfl
  | cons m ms ih =>
    simp [addFunctionCalls, mountSummary, Event.addFunctionArgs?]

theorem newRuntimeCalls_mountStatic (w : World R Rt) (c : Context) (baseDir : String)
    (check : Bool) (mux : R) :
    newRuntimeCalls (mountStatic w c baseDir check mux).2 = [] := by
  unfold mountStatic
  split
  · split <;> rfl
  · rfl

theorem addFunctionCalls_mountStatic (w : World R Rt) (c : Context) (baseDir : String)
    (check : Bool) (mux : R) :
    addFunctionCalls (mountStatic w c baseDir check mux).2 = [] := by
  unfold mountStatic
  split
  · split <;> rfl
  · rfl

theorem newRuntimeCalls_afterLoop (w : World R Rt) (c : Context) (stderr : Writer)
    (baseDir : String) (check : Bool) (functions : List (String × AWSServerlessFunction))
    (mux : R) (tr : List (Event Rt)) :
    newRuntimeCalls (afterLoop w c stderr baseDir check functions mux tr).trace =
      newRuntimeCalls tr := by
  unfold afterLoop
  split
  · split <;> simp [newRuntimeCalls, Event.newRuntimeOpt?]
  · simp only [newRuntimeCalls_append, newRuntimeCalls_mountStatic,
      newRuntimeCalls_mountSummary]
    simp [newRuntimeCalls, Event.newRuntimeOpt?, banner]

theorem addFunctionCalls_afterLoop (w : World R Rt) (c : Context) (stderr : Writer)
    (baseDir : String) (check : Bool) (functions : List (String × AWSServerlessFunction))
    (mux : R) (tr : List (Event Rt)) :
    addFunctionCalls (afterLoop w c stderr baseDir check functions mux tr).trace =
      addFunctionCalls tr := by
  unfold afterLoop
  split
  · split <;> simp [addFunctionCalls, Event.addFunctionArgs?]
  · simp only [addFunctionCalls_append, addFunctionCalls_mountStatic,
      addFunctionCalls_mountSummary]
    simp [addFunctionCalls, Event.addFunctionArgs?, banner]

theorem newRuntimeCalls_setupLogger (w : World R Rt) (c : Context) (stderr : Writer)
    (tr0 : List (Event Rt)) (hlog : setupLogger w c = .ok (stderr, tr0)) :
    newRuntimeCalls tr0 = [] := by
  simp only [newRuntimeCalls, List.filterMap_eq_nil_iff]
  intro ev hev
  rcases mem_setupLogger w c stderr tr0 hlog ev hev with ⟨_, rfl⟩ | ⟨_, rfl⟩ <;> rfl

theorem addFunctionCalls_setupLogger (w : World R Rt) (c : Context) (stderr : Writer)
    (tr0 : List (Event Rt)) (hlog : setupLogger w c = .ok (stderr, tr0)) :
    addFunctionCalls tr0 = [] := by
  simp only [addFunctionCalls, List.filterMap_eq_nil_iff]
  intro ev hev
  rcases mem_setupLogger w c stderr tr0 hlog ev hev with ⟨_, rfl⟩ | ⟨_, rfl⟩ <;> rfl

/-- The `NewRuntime` calls of a run that got past the docker check. -/
theorem newRuntimeCalls_start (w : World R Rt) (c : Context) (stderr : Writer)
    (tr0 : List (Event Rt)) (tpl : Template) (v : String)
    (hlog : setupLogger w c = .ok (stderr, tr0))
    (hopen : w.goformationOpen (w.getTemplateFilename c.template) = .ok tpl)
    (hdock : w.getDockerVersion = .ok v) :
    newRuntimeCalls (start w c).trace =
      tpl.functions.map (fun nf =>
        runtimeOpt c stderr (chooseBaseDir w c (w.getTemplateFilename c.template)).1
          (chooseBaseDir w c (w.getTemplateFilename c.template)).2 nf.1 nf.2) := by
  rw [start_eq_afterLoop w c stderr tr0 tpl v hlog hopen hdock, newRuntimeCalls_afterLoop]
  simp only [newRuntimeCalls_append, newRuntimeCalls_setupLogger w c stderr tr0 hlog,
    newRuntimeCalls_functionLoop]
  simp [newRuntimeCalls, Event.newRuntimeOpt?, connectedTrace]

/-- The `AddFunction` calls of a run that got past the docker check. -/
theorem addFunctionCalls_start (w : World R Rt) (c : Context) (stderr : Writer)
    (tr0 : List (Event Rt)) (tpl : Template) (v : String)
    (hlog : setupLogger w c = .ok (stderr, tr0))
    (hopen : w.goformationOpen (w.getTemplateFilename c.template) = .ok tpl)
    (hdock : w.getDockerVersion = .ok v) :
    addFunctionCalls (start w c).trace =
      tpl.functions.filterMap (fun nf =>
        match w.NewRuntime (runtimeOpt c stderr
          (chooseBaseDir w c (w.getTemplateFilename c.template)).1
          (chooseBaseDir w c (w.getTemplateFilename c.template)).2 nf.1 nf.2) with
        | .ok runt => some (nf.2, runt)
        | .error _ => none) := by
  rw [start_eq_afterLoop w c stderr tr0 tpl v hlog hopen hdock, addFunctionCalls_afterLoop]
  simp only [addFunctionCalls_append, addFunctionCalls_setupLogger w c stderr tr0 hlog,
    addFunctionCalls_functionLoop]
  simp [addFunctionCalls, Event.addFunctionArgs?, connectedTrace]

theorem afterLoop_no_mounts (w : World R Rt) (c : Context) (stderr : Writer)
    (baseDir : String) (check : Bool) (functions : List (String × AWSServerlessFunction))
    (mux : R) (tr : List (Event Rt)) (hz : w.Mounts mux = []) :
    afterLoop w c stderr baseDir check functions mux tr =
      ⟨tr ++ [.fprintf stderr (if functions = [] then noFunctionsMsg else noneMountedMsg),
        .osExit 1], .exited 1⟩ := by
  unfold afterLoop
  rw [if_pos (by simp [hz])]
  cases functions with
  | nil => simp
  | cons x xs => simp

theorem afterLoop_mounts (w : World R Rt) (c : Context) (stderr : Writer)
    (baseDir : String) (check : Bool) (functions : List (String × AWSServerlessFunction))
    (mux : R) (tr : List (Event Rt)) (hm : w.Mounts mux ≠ []) :
    afterLoop w c stderr baseDir check functions mux tr =
      ⟨tr ++ [.fprintf stderr "\n"] ++ (mountStatic w c baseDir check mux).2
          ++ mountSummary c (w.Mounts (mountStatic w c baseDir check mux).1)
          ++ banner stderr ++ [.listenAndServe (listenAddr c)],
        .serving (listenAddr c) (mountStatic w c baseDir check mux).1⟩ := by
  unfold afterLoop
  rw [if_neg]
  cases h : w.Mounts mux with
  | nil => exact absurd h hm
  | cons x xs => simp

/-- The four ways a run of `start` can go, up to the loop. -/
theorem start_cases (w : World R Rt) (c : Context) :
    (∃ p err, setupLogger w c = .error [.osCreate p, .logFatalf err]
        ∧ start w c = ⟨[.osCreate p, .logFatalf err], .exited 1⟩)
    ∨ (∃ stderr tr0 err, setupLogger w c = .ok (stderr, tr0)
        ∧ w.goformationOpen (w.getTemplateFilename c.template) = .error err
        ∧ start w c = ⟨tr0 ++ [.goformationOpen (w.getTemplateFilename c.template),
            .logFatalf ("Failed to parse template: " ++ err ++ "\n")], .exited 1⟩)
    ∨ (∃ stderr tr0 tpl err, setupLogger w c = .ok (stderr, tr0)
        ∧ w.goformationOpen (w.getTemplateFilename c.template) = .ok tpl
        ∧ w.getDockerVersion = .error err
        ∧ start w c = ⟨tr0 ++ [.goformationOpen (w.getTemplateFilename c.template),
            .getDockerVersion,
            .logPrintf "Running AWS SAM projects locally requires Docker. Have you got it installed?\n",
            .logPrintf (err ++ "\n"), .osExit 1], .exited 1⟩)
    ∨ (∃ stderr tr0 tpl v, setupLogger w c = .ok (stderr, tr0)
        ∧ w.goformationOpen (w.getTemplateFilename c.template) = .ok tpl
        ∧ w.getDockerVersion = .ok v) := by
  cases hlog : setupLogger w c with
  | error tr =>
    left
    have hs : start w c = ⟨tr, .exited 1⟩ := by simp only [start, hlog]
    simp only [setupLogger] at hlog
    split at hlog
    · split at hlog
      · cases hlog
      · simp only [Except.error.injEq] at hlog
        subst hlog
        exact ⟨_, _, rfl, hs⟩
    · cases hlog
  | ok p =>
    obtain ⟨stderr, tr0⟩ := p
    right
    cases hopen : w.goformationOpen (w.getTemplateFilename c.template) with
    | error err =>
      left
      exact ⟨stderr, tr0, err, rfl, rfl, by simp only [start, hlog, hopen]⟩
    | ok tpl =>
      right
      cases hdock : w.getDockerVersion with
      | error err =>
        left
        exact ⟨stderr, tr0, tpl, err, rfl, rfl, rfl, by simp only [start, hlog, hopen, hdock]⟩
      | ok v =>
        right
        exact ⟨stderr, tr0, tpl, v, rfl, rfl, rfl⟩

theorem mem_mountSummary (c : Context) (ms : List ServerlessRouterMount) (ev : Event Rt)
    (hev : ev ∈ (mountSummary c ms : List (Event Rt))) :
    ∃ m ∈ ms, ev = .fprintf .osStderr (mountMsg c m ++ "\n") := by
  simp only [mountSummary, List.mem_map] at hev
  obtain ⟨m, hm, rfl⟩ := hev
  exact ⟨m, hm, rfl⟩

theorem mem_banner (stderr : Writer) (ev : Event Rt)
    (hev : ev ∈ (banner stderr : List (Event Rt))) :
    ∃ msg, ev = .fprintf stderr msg := by
  simp only [banner, List.mem_cons, List.mem_singleton, List.not_mem_nil, or_false] at hev
  rcases hev with rfl | rfl | rfl | rfl | rfl | rfl <;> exact ⟨_, rfl⟩

theorem mountStatic_empty (w : World R Rt) (c : Context) (baseDir : String)
    (check : Bool) (mux : R) (h : c.staticDir = "") :
    mountStatic w c baseDir check mux = (mux, []) := by
  simp [mountStatic, h]

theorem mountStatic_error (w : World R Rt) (c : Context) (baseDir : String)
    (check : Bool) (mux : R) (err : String) (h : c.staticDir ≠ "")
    (hwd : w.getWorkingDir baseDir c.staticDir check = .error err) :
    mountStatic w c baseDir check mux =
      (mux, [.getWorkingDir baseDir c.staticDir check,
        .logPrintf ("WARNING: Could not mount static files: " ++ err ++ "\n")]) := by
  simp [mountStatic, h, hwd]

theorem mountStatic_ok (w : World R Rt) (c : Context) (baseDir : String)
    (check : Bool) (mux : R) (static : String) (h : c.staticDir ≠ "")
    (hwd : w.getWorkingDir baseDir c.staticDir check = .ok static) :
    mountStatic w c baseDir check mux =
      (w.AddStaticDir mux static "/",
        [.getWorkingDir baseDir c.staticDir check,
         .fprintf .osStderr ("Mounting static files from " ++ static ++ " at /\n"),
         .addStaticDir static "/"]) := by
  simp [mountStatic, h, hwd]

theorem mem_newRuntimeCalls (tr : List (Event Rt)) (opt : NewRuntimeOpt) :
    opt ∈ newRuntimeCalls tr ↔ .newRuntime opt ∈ tr := by
  simp only [newRuntimeCalls, List.mem_filterMap]
  constructor
  · rintro ⟨ev, hev, hopt⟩
    cases ev <;> simp only [Event.newRuntimeOpt?, Option.some.injEq, reduceCtorEq] at hopt
    subst hopt
    exact hev
  · intro h
    exact ⟨_, h, rfl⟩

theorem mem_addFunctionCalls (tr : List (Event Rt)) (f : AWSServerlessFunction) (runt : Rt) :
    (f, runt) ∈ addFunctionCalls tr ↔ .addFunction f runt ∈ tr := by
  simp only [addFunctionCalls, List.mem_filterMap]
  constructor
  · rintro ⟨ev, hev, hargs⟩
    cases ev <;> simp only [Event.addFunctionArgs?, Option.some.injEq, reduceCtorEq,
      Prod.mk.injEq] at hargs
    obtain ⟨rfl, rfl⟩ := hargs
    exact hev
  · intro h
    exact ⟨_, h, rfl⟩

/-- Up to the end of the loop, a run that got past the docker check performs
none of the actions of `Event.afterLoopOnly`. -/
theorem afterLoopOnly_before_check (w : World R Rt) (c : Context) (stderr : Writer)
    (tr0 : List (Event Rt)) (hlog : setupLogger w c = .ok (stderr, tr0))
    (filename v : String) (baseDir : String) (check : Bool) (mux : R)
    (fns : List (String × AWSServerlessFunction)) (ev : Event Rt)
    (hev : ev ∈ tr0 ++ connectedTrace filename v ++ [.newServerlessRouter]
      ++ (functionLoop w c stderr baseDir check mux fns).2) :
    ev.afterLoopOnly = false := by
  simp only [List.mem_append, connectedTrace, List.mem_cons, List.mem_singleton,
    List.not_mem_nil, or_false] at hev
  rcases hev with ((hev | rfl | rfl | rfl) | rfl) | hev
  · rcases mem_setupLogger w c stderr tr0 hlog ev hev with ⟨_, rfl⟩ | ⟨_, rfl⟩ <;> rfl
  · rfl
  · rfl
  · rfl
  · rfl
  · rcases mem_functionLoop w c stderr baseDir check mux fns ev hev with
      ⟨_, rfl⟩ | ⟨_, _, rfl⟩ | ⟨_, rfl⟩ <;> rfl

theorem fprintfWrites_of_afterLoopOnly (tr : List (Event Rt))
    (h : ∀ ev ∈ tr, ev.afterLoopOnly = false) : fprintfWrites tr = [] := by
  simp only [fprintfWrites, List.filterMap_eq_nil_iff]
  intro ev hev
  have := h ev hev
  cases ev <;> first | rfl | exact Bool.noConfusion this

theorem fprintfWrites_append (a b : List (Event Rt)) :
    fprintfWrites (a ++ b) = fprintfWrites a ++ fprintfWrites b := by
  simp [fprintfWrites]

theorem runtimeOpt_congr (c1 c2 : Context) (stderr : Writer) (baseDir : String)
    (check : Bool) (name : String) (function : AWSServerlessFunction)
    (henv : c1.envVars = c2.envVars) (hdbg : c1.debugPort = c2.debugPort) :
    runtimeOpt c1 stderr baseDir check name function
      = runtimeOpt c2 stderr baseDir check name function := by
  simp only [runtimeOpt, henv, hdbg]

/-- The loop reads only the `env-vars` and `debug-port` options. -/
theorem functionLoop_congr (w : World R Rt) (c1 c2 : Context) (stderr : Writer)
    (baseDir : String) (check : Bool) (mux : R)
    (fns : List (String × AWSServerlessFunction))
    (henv : c1.envVars = c2.envVars) (hdbg : c1.debugPort = c2.debugPort) :
    functionLoop w c1 stderr baseDir check mux fns
      = functionLoop w c2 stderr baseDir check mux fns := by
  induction fns generalizing mux with
  | nil => rfl
  | cons x xs ih =>
    obtain ⟨name, function⟩ := x
    have hbody : ∀ m, loopBody w c1 stderr baseDir check m name function
        = loopBody w c2 stderr baseDir check m name function := by
      intro m
      simp only [loopBody, runtimeOpt_congr c1 c2 stderr baseDir check name function henv hdbg]
    simp only [functionLoop, hbody, ih]

theorem afterDockerCheck_setupLogger (w : World R Rt) (c : Context) (stderr : Writer)
    (tr0 : List (Event Rt)) (hlog : setupLogger w c = .ok (stderr, tr0))
    (ev : Event Rt) (hev : ev ∈ tr0) : ev.afterDockerCheck = false := by
  rcases mem_setupLogger w c stderr tr0 hlog ev hev with ⟨_, rfl⟩ | ⟨_, rfl⟩ <;> rfl

/-- A run either gets past the docker check, or exits with status 1 without any
of the actions of `Event.afterDockerCheck`. -/
theorem start_connected_or_exited (w : World R Rt) (c : Context) :
    (∃ stderr tr0 tpl v, setupLogger w c = .ok (stderr, tr0)
        ∧ w.goformationOpen (w.getTemplateFilename c.template) = .ok tpl
        ∧ w.getDockerVersion = .ok v)
    ∨ ((start w c).outcome = .exited 1
        ∧ ∀ ev ∈ (start w c).trace, ev.afterDockerCheck = false) := by
  rcases start_cases w c with ⟨p, err, -, hs⟩ | ⟨stderr, tr0, err, hlog, -, hs⟩
    | ⟨stderr, tr0, tpl, err, hlog, -, -, hs⟩ | h
  · right
    rw [hs]
    refine ⟨rfl, ?_⟩
    intro ev hev
    simp only [List.mem_cons, List.mem_singleton, List.not_mem_nil, or_false] at hev
    rcases hev with rfl | rfl <;> rfl
  · right
    rw [hs]
    refine ⟨rfl, ?_⟩
    intro ev hev
    simp only [List.mem_append, List.mem_cons, List.mem_singleton, List.not_mem_nil,
      or_false] at hev
    rcases hev with hev | rfl | rfl
    · exact afterDockerCheck_setupLogger w c stderr tr0 hlog ev hev
    · rfl
    · rfl
  · right
    rw [hs]
    refine ⟨rfl, ?_⟩
    intro ev hev
    simp only [List.mem_append, List.mem_cons, List.mem_singleton, List.not_mem_nil,
      or_false] at hev
    rcases hev with hev | rfl | rfl | rfl | rfl | rfl
    · exact afterDockerCheck_setupLogger w c stderr tr0 hlog ev hev
    all_goals rfl
  · exact Or.inl h

theorem afterLoop_trace_extends (w : World R Rt) (c : Context) (stderr : Writer)
    (baseDir : String) (check : Bool) (functions : List (String × AWSServerlessFunction))
    (mux : R) (tr : List (Event Rt)) :
    ∃ rest, (afterLoop w c stderr baseDir check functions mux tr).trace = tr ++ rest := by
  by_cases h : w.Mounts mux = []
  · rw [afterLoop_no_mounts _ _ _ _ _ _ _ _ h]
    exact ⟨_, rfl⟩
  · rw [afterLoop_mounts _ _ _ _ _ _ _ _ h]
    exact ⟨[.fprintf stderr "\n"] ++ (mountStatic w c baseDir check mux).2
      ++ mountSummary c (w.Mounts (mountStatic w c baseDir check mux).1)
      ++ banner stderr ++ [.listenAndServe (listenAddr c)], by simp only [List.append_assoc]⟩

theorem afterMountCheck_imp (ev : Event Rt) (h : ev.afterMountCheck = true) :
    ev.afterLoopOnly = true ∧ ev.afterDockerCheck = true := by
  cases ev <;> first | exact ⟨rfl, rfl⟩ | exact Bool.noConfusion h

/-- The run of `start` when the router reports a mount after the loop. -/
theorem start_serving (w : World R Rt) (c : Context) (stderr : Writer)
    (tr0 : List (Event Rt)) (tpl : Template) (v : String)
    (hlog : setupLogger w c = .ok (stderr, tr0))
    (hopen : w.goformationOpen (w.getTemplateFilename c.template) = .ok tpl)
    (hdock : w.getDockerVersion = .ok v)
    (hm : w.Mounts (functionLoop w c stderr
      (chooseBaseDir w c (w.getTemplateFilename c.template)).1
      (chooseBaseDir w c (w.getTemplateFilename c.template)).2
      w.NewServerlessRouter tpl.functions).1 ≠ []) :
    start w c =
      ⟨(tr0 ++ connectedTrace (w.getTemplateFilename c.template) v ++ [.newServerlessRouter]
          ++ (functionLoop w c stderr
            (chooseBaseDir w c (w.getTemplateFilename c.template)).1
            (chooseBaseDir w c (w.getTemplateFilename c.template)).2
            w.NewServerlessRouter tpl.functions).2)
        ++ [.fprintf stderr "\n"]
        ++ (mountStatic w c (chooseBaseDir w c (w.getTemplateFilename c.template)).1
            (chooseBaseDir w c (w.getTemplateFilename c.template)).2
            (functionLoop w c stderr
              (chooseBaseDir w c (w.getTemplateFilename c.template)).1
              (chooseBaseDir w c (w.getTemplateFilename c.template)).2
              w.NewServerlessRouter tpl.functions).1).2
        ++ mountSummary c (w.Mounts
          (mountStatic w c (chooseBaseDir w c (w.getTemplateFilename c.template)).1
            (chooseBaseDir w c (w.getTemplateFilename c.template)).2
            (functionLoop w c stderr
              (chooseBaseDir w c (w.getTemplateFilename c.template)).1
              (chooseBaseDir w c (w.getTemplateFilename c.template)).2
              w.NewServerlessRouter tpl.functions).1).1)
        ++ banner stderr ++ [.listenAndServe (listenAddr c)],
      .serving (listenAddr c)
        (mountStatic w c (chooseBaseDir w c (w.getTemplateFilename c.template)).1
          (chooseBaseDir w c (w.getTemplateFilename c.template)).2
          (functionLoop w c stderr
            (chooseBaseDir w c (w.getTemplateFilename c.template)).1
            (chooseBaseDir w c (w.getTemplateFilename c.template)).2
            w.NewServerlessRouter tpl.functions).1).1⟩ := by
  rw [start_eq_afterLoop w c stderr tr0 tpl v hlog hopen hdock,
    afterLoop_mounts _ _ _ _ _ _ _ _ hm]

/-- A run either exits with status 1 without any of the actions of
`Event.afterMountCheck`, or gets past the docker check with a router that
reports a mount after the loop. -/
theorem start_exited_or_mounted (w : World R Rt) (c : Context) :
    ((start w c).outcome = .exited 1
        ∧ ∀ ev ∈ (start w c).trace, ev.afterMountCheck = false)
    ∨ (∃ stderr tr0 tpl v, setupLogger w c = .ok (stderr, tr0)
        ∧ w.goformationOpen (w.getTemplateFilename c.template) = .ok tpl
        ∧ w.getDockerVersion = .ok v
        ∧ w.Mounts (functionLoop w c stderr
            (chooseBaseDir w c (w.getTemplateFilename c.template)).1
            (chooseBaseDir w c (w.getTemplateFilename c.template)).2
            w.NewServerlessRouter tpl.functions).1 ≠ []) := by
  rcases start_connected_or_exited w c with ⟨stderr, tr0, tpl, v, hlog, hopen, hdock⟩ | ⟨hout, hall⟩
  · by_cases hm : w.Mounts (functionLoop w c stderr
        (chooseBaseDir w c (w.getTemplateFilename c.template)).1
        (chooseBaseDir w c (w.getTemplateFilename c.template)).2
        w.NewServerlessRouter tpl.functions).1 = []
    · left
      rw [start_eq_afterLoop w c stderr tr0 tpl v hlog hopen hdock,
        afterLoop_no_mounts _ _ _ _ _ _ _ _ hm]
      refine ⟨rfl, ?_⟩
      intro ev hev
      rcases List.mem_append.mp hev with h | h
      · have h1 := afterLoopOnly_before_check w c stderr tr0 hlog _ _ _ _ _ _ ev h
        cases hb : ev.afterMountCheck
        · rfl
        · rw [(afterMountCheck_imp ev hb).1] at h1
          cases h1
      · simp only [List.mem_cons, List.mem_singleton, List.not_mem_nil, or_false] at h
        rcases h with rfl | rfl <;> rfl
    · exact Or.inr ⟨stderr, tr0, tpl, v, hlog, hopen, hdock, hm⟩
  · left
    refine ⟨hout, ?_⟩
    intro ev hev
    have h1 := hall ev hev
    cases hb : ev.afterMountCheck
    · rfl
    · rw [(afterMountCheck_imp ev hb).2] at h1
      cases h1

theorem mem_mountStatic (w : World R Rt) (c : Context) (baseDir : String)
    (check : Bool) (mux : R) (ev : Event Rt)
    (hev : ev ∈ (mountStatic w c baseDir check mux).2) :
    c.staticDir ≠ "" ∧
      (ev = .getWorkingDir baseDir c.staticDir check
        ∨ (∃ err, w.getWorkingDir baseDir c.staticDir check = .error err
            ∧ ev = .logPrintf ("WARNING: Could not mount static files: " ++ err ++ "\n"))
        ∨ (∃ dir, w.getWorkingDir baseDir c.staticDir check = .ok dir
            ∧ (ev = .fprintf .osStderr ("Mounting static files from " ++ dir ++ " at /\n")
              ∨ ev = .addStaticDir dir "/"))) := by
  by_cases hs : c.staticDir = ""
  · rw [mountStatic_empty w c baseDir check mux hs] at hev
    cases hev
  · refine ⟨hs, ?_⟩
    cases hwd : w.getWorkingDir baseDir c.staticDir check with
    | error err =>
      rw [mountStatic_error w c baseDir check mux err hs hwd] at hev
      simp only [List.mem_cons, List.mem_singleton, List.not_mem_nil, or_false] at hev
      rcases hev with rfl | rfl
      · exact Or.inl rfl
      · exact Or.inr (Or.inl ⟨err, rfl, rfl⟩)
    | ok dir =>
      rw [mountStatic_ok w c baseDir check mux dir hs hwd] at hev
      simp only [List.mem_cons, List.mem_singleton, List.not_mem_nil, or_false] at hev
      rcases hev with rfl | rfl | rfl
      · exact Or.inl rfl
      · exact Or.inr (Or.inr ⟨dir, rfl, Or.inl rfl⟩)
      · exact Or.inr (Or.inr ⟨dir, rfl, Or.inr rfl⟩)

/-- In a run that reaches the listener, the actions of `Event.afterMountCheck`
are those of the static directory block, and the listener. -/
theorem mem_start_afterMountCheck (w : World R Rt) (c : Context) (stderr : Writer)
    (tr0 : List (Event Rt)) (tpl : Template) (v : String)
    (hlog : setupLogger w c = .ok (stderr, tr0))
    (hopen : w.goformationOpen (w.getTemplateFilename c.template) = .ok tpl)
    (hdock : w.getDockerVersion = .ok v)
    (hm : w.Mounts (functionLoop w c stderr
      (chooseBaseDir w c (w.getTemplateFilename c.template)).1
      (chooseBaseDir w c (w.getTemplateFilename c.template)).2
      w.NewServerlessRouter tpl.functions).1 ≠ [])
    (ev : Event Rt) (hp : ev.afterMountCheck = true) :
    ev ∈ (start w c).trace ↔
      (ev ∈ (mountStatic w c (chooseBaseDir w c (w.getTemplateFilename c.template)).1
            (chooseBaseDir w c (w.getTemplateFilename c.template)).2
            (functionLoop w c stderr
              (chooseBaseDir w c (w.getTemplateFilename c.template)).1
              (chooseBaseDir w c (w.getTemplateFilename c.template)).2
              w.NewServerlessRouter tpl.functions).1).2
        ∨ ev = .listenAndServe (listenAddr c)) := by
  rw [start_serving w c stderr tr0 tpl v hlog hopen hdock hm]
  simp only [List.mem_append, List.mem_singleton]
  constructor
  · rintro (((((h | h) | h) | h) | h) | h)
    · have h1 := afterLoopOnly_before_check w c stderr tr0 hlog _ _ _ _ _ _ ev
        (by simpa only [List.mem_append, List.mem_singleton] using h)
      rw [(afterMountCheck_imp ev hp).1] at h1
      cases h1
    · subst h; cases hp
    · exact Or.inl h
    · obtain ⟨m, -, rfl⟩ := mem_mountSummary c _ ev h
      cases hp
    · obtain ⟨msg, rfl⟩ := mem_banner stderr ev h
      cases hp
    · exact Or.inr h
  · rintro (h | h)
    · exact Or.inl (Or.inl (Or.inl (Or.inr h)))
    · exact Or.inr h

theorem getWorkingDirCalls_append (a b : List (Event Rt)) :
    getWorkingDirCalls (a ++ b) = getWorkingDirCalls a ++ getWorkingDirCalls b := by
  simp [getWorkingDirCalls]

theorem getWorkingDirCalls_of_afterLoopOnly (tr : List (Event Rt))
    (h : ∀ ev ∈ tr, ev.afterLoopOnly = false) : getWorkingDirCalls tr = [] := by
  simp only [getWorkingDirCalls, List.filterMap_eq_nil_iff]
  intro ev hev
  have := h ev hev
  cases ev <;> first | rfl | exact Bool.noConfusion this

theorem getWorkingDirCalls_mountSummary (c : Context) (ms : List ServerlessRouterMount) :
    getWorkingDirCalls (mountSummary c ms : List (Event Rt)) = [] := by
  simp only [getWorkingDirCalls, List.filterMap_eq_nil_iff]
  intro ev hev
  obtain ⟨m, -, rfl⟩ := mem_mountSummary c ms ev hev
  rfl

theorem getWorkingDirCalls_mountStatic (w : World R Rt) (c : Context) (baseDir : String)
    (check : Bool) (mux : R) :
    getWorkingDirCalls (mountStatic w c baseDir check mux).2 =
      if c.staticDir = "" then [] else [(baseDir, c.staticDir, check)] := by
  by_cases hs : c.staticDir = ""
  · rw [mountStatic_empty w c baseDir check mux hs, if_pos hs]
    rfl
  · rw [if_neg hs]
    cases hwd : w.getWorkingDir baseDir c.staticDir check with
    | error err => rw [mountStatic_error w c baseDir check mux err hs hwd]; rfl
    | ok dir => rw [mountStatic_ok w c baseDir check mux dir hs hwd]; rfl

/-- The `getWorkingDir` calls of a run that got past the mount check. -/
theorem getWorkingDirCalls_start (w : World R Rt) (c : Context) (stderr : Writer)
    (tr0 : List (Event Rt)) (tpl : Template) (v : String)
    (hlog : setupLogger w c = .ok (stderr, tr0))
    (hopen : w.goformationOpen (w.getTemplateFilename c.template) = .ok tpl)
    (hdock : w.getDockerVersion = .ok v)
    (hm : w.Mounts (functionLoop w c stderr
      (chooseBaseDir w c (w.getTemplateFilename c.template)).1
      (chooseBaseDir w c (w.getTemplateFilename c.template)).2
      w.NewServerlessRouter tpl.functions).1 ≠ []) :
    getWorkingDirCalls (start w c).trace =
      if c.staticDir = "" then []
      else [((chooseBaseDir w c (w.getTemplateFilename c.template)).1, c.staticDir,
        (chooseBaseDir w c (w.getTemplateFilename c.template)).2)] := by
  rw [start_serving w c stderr tr0 tpl v hlog hopen hdock hm]
  simp only [getWorkingDirCalls_append, getWorkingDirCalls_mountStatic,
    getWorkingDirCalls_mountSummary,
    getWorkingDirCalls_of_afterLoopOnly _
      (afterLoopOnly_before_check w c stderr tr0 hlog _ _ _ _ _ _)]
  simp [getWorkingDirCalls, Event.getWorkingDirArgs?, banner]

end Lemmas

/-! ## The claims -/

section Claims
variable {R Rt : Type}

/-- C6: in a run that got past the docker check, the `NewRuntime` calls are, in
iteration order, exactly one per function of the template, with `LogicalID` the
map key and `Function` the function; all of them carry the same `Logger`,
`EnvOverrideFile`, `Basedir`, `CheckWorkingDirExist` and `DebugPort`; and the
`AddFunction` calls are exactly one per function whose `NewRuntime` call
succeeded, with that function and the runtime built for it, and no other. -/
theorem C6_one_runtime_per_function (w : World R Rt) (c : Context) (stderr : Writer)
    (tr0 : List (Event Rt)) (tpl : Template) (v : String)
    (hlog : setupLogger w c = .ok (stderr, tr0))
    (hopen : w.goformationOpen (w.getTemplateFilename c.template) = .ok tpl)
    (hdock : w.getDockerVersion = .ok v) :
    (newRuntimeCalls (start w c).trace).map (fun opt => (opt.LogicalID, opt.Function))
        = tpl.functions
    ∧ (∀ opt ∈ newRuntimeCalls (start w c).trace,
        opt.Logger = stderr ∧ opt.EnvOverrideFile = c.envVars
        ∧ opt.Basedir = (chooseBaseDir w c (w.getTemplateFilename c.template)).1
        ∧ opt.CheckWorkingDirExist = (chooseBaseDir w c (w.getTemplateFilename c.template)).2
        ∧ opt.DebugPort = c.debugPort)
    ∧ addFunctionCalls (start w c).trace =
        tpl.functions.filterMap (fun nf =>
          match w.NewRuntime
            { LogicalID := nf.1, Function := nf.2, Logger := stderr,
              EnvOverrideFile := c.envVars,
              Basedir := (chooseBaseDir w c (w.getTemplateFilename c.template)).1,
              CheckWorkingDirExist := (chooseBaseDir w c (w.getTemplateFilename c.template)).2,
              DebugPort := c.debugPort } with
          | .ok runt => some (nf.2, runt)
          | .error _ => none) := by
  refine ⟨?_, ?_, ?_⟩
  · rw [newRuntimeCalls_start w c stderr tr0 tpl v hlog hopen hdock, List.map_map]
    simp [Function.comp_def, runtimeOpt]
  · intro opt hopt
    rw [newRuntimeCalls_start w c stderr tr0 tpl v hlog hopen hdock] at hopt
    obtain ⟨nf, -, rfl⟩ := List.mem_map.mp hopt
    exact ⟨rfl, rfl, rfl, rfl, rfl⟩
  · exact addFunctionCalls_start w c stderr tr0 tpl v hlog hopen hdock

/-- C1: in a run that got past the docker check, take any function of the
template whose `NewRuntime` call returns an error, the sentinel
`ErrRuntimeNotSupported` or any other.  Its iteration consists of the
`NewRuntime` call and one log line, with no `AddFunction` call and no exit, and
leaves the router as it was; the loop runs the iterations before it, then it,
then the iterations of all remaining functions; `start` goes on to the mount
check after the loop; and for every function of the template `NewRuntime` is
attempted and, when it succeeds, `AddFunction` is called with that function. -/
theorem C1_runtime_error_skips_only_that_function (w : World R Rt) (c : Context)
    (stderr : Writer) (tr0 : List (Event Rt)) (tpl : Template) (v : String)
    (earlier later : List (String × AWSServerlessFunction)) (name : String)
    (function : AWSServerlessFunction) (err : RuntimeError)
    (hlog : setupLogger w c = .ok (stderr, tr0))
    (hopen : w.goformationOpen (w.getTemplateFilename c.template) = .ok tpl)
    (hdock : w.getDockerVersion = .ok v)
    (hfn : tpl.functions = earlier ++ (name, function) :: later)
    (herr : w.NewRuntime (runtimeOpt c stderr
      (chooseBaseDir w c (w.getTemplateFilename c.template)).1
      (chooseBaseDir w c (w.getTemplateFilename c.template)).2 name function) = .error err) :
    let baseDir := (chooseBaseDir w c (w.getTemplateFilename c.template)).1
    let check := (chooseBaseDir w c (w.getTemplateFilename c.template)).2
    let before := functionLoop w c stderr baseDir check w.NewServerlessRouter earlier
    let after := functionLoop w c stderr baseDir check before.1 later
    let skipped : List (Event Rt) :=
      [.newRuntime (runtimeOpt c stderr baseDir check name function),
       .logPrintf (match err with
        | .ErrRuntimeNotSupported =>
          "Ignoring " ++ name ++ " (" ++ function.Handler
            ++ ") due to unsupported runtime (" ++ function.Runtime ++ ")\n"
        | .other msg =>
          "Ignoring " ++ name ++ " (" ++ function.Handler ++ ") due to "
            ++ function.Runtime ++ " runtime init error: " ++ msg ++ "\n")]
    (∀ mux, loopBody w c stderr baseDir check mux name function = (mux, skipped))
    ∧ functionLoop w c stderr baseDir check w.NewServerlessRouter tpl.functions
        = (after.1, before.2 ++ skipped ++ after.2)
    ∧ start w c = afterLoop w c stderr baseDir check tpl.functions after.1
        (tr0 ++ connectedTrace (w.getTemplateFilename c.template) v
          ++ [.newServerlessRouter] ++ (before.2 ++ skipped ++ after.2))
    ∧ (∀ nf ∈ tpl.functions,
        .newRuntime (runtimeOpt c stderr baseDir check nf.1 nf.2) ∈ (start w c).trace
        ∧ ∀ runt, w.NewRuntime (runtimeOpt c stderr baseDir check nf.1 nf.2) = .ok runt →
            .addFunction nf.2 runt ∈ (start w c).trace) := by
  intro baseDir check before after skipped
  have hbody : ∀ mux, loopBody w c stderr baseDir check mux name function = (mux, skipped) := by
    intro mux
    rw [loopBody_error w c stderr baseDir check mux name function err herr]
    cases err <;> rfl
  have hloop : functionLoop w c stderr baseDir check w.NewServerlessRouter tpl.functions
      = (after.1, before.2 ++ skipped ++ after.2) := by
    rw [hfn, functionLoop_append]
    simp only [functionLoop, hbody, List.append_assoc]
  refine ⟨hbody, hloop, ?_, ?_⟩
  · rw [start_eq_afterLoop w c stderr tr0 tpl v hlog hopen hdock]
    show afterLoop w c stderr baseDir check tpl.functions
      (functionLoop w c stderr baseDir check w.NewServerlessRouter tpl.functions).1
      (tr0 ++ connectedTrace (w.getTemplateFilename c.template) v ++ [.newServerlessRouter]
        ++ (functionLoop w c stderr baseDir check w.NewServerlessRouter tpl.functions).2) = _
    rw [hloop]
  · intro nf hnf
    constructor
    · have hmem : runtimeOpt c stderr baseDir check nf.1 nf.2
          ∈ newRuntimeCalls (start w c).trace := by
        rw [newRuntimeCalls_start w c stderr tr0 tpl v hlog hopen hdock]
        exact List.mem_map.mpr ⟨nf, hnf, rfl⟩
      exact (mem_newRuntimeCalls _ _).mp hmem
    · intro runt hrunt
      have hmem : (nf.2, runt) ∈ addFunctionCalls (start w c).trace := by
        rw [addFunctionCalls_start w c stderr tr0 tpl v hlog hopen hdock]
        refine List.mem_filterMap.mpr ⟨nf, hnf, ?_⟩
        show (match w.NewRuntime (runtimeOpt c stderr baseDir check nf.1 nf.2) with
          | .ok runt => some (nf.2, runt)
          | .error _ => none) = some (nf.2, runt)
        rw [hrunt]
      exact (mem_addFunctionCalls _ _ _).mp hmem

/-- C4: in a run that got past the docker check, take any function of the
template whose runtime was built and for which `AddFunction` (called on the
router the earlier iterations left) returns `router.ErrNoEventsFound`.  Its
iteration consists of the `NewRuntime` call, the `AddFunction` call and exactly
one log line, `Ignoring <name> (<handler>) as no API event sources are defined`,
with no exit; the loop then runs the iterations of all remaining functions, for
each of which `NewRuntime` is called; and `start` goes on to the mount check
after the loop. -/
theorem C4_no_events_logged_once_and_loop_continues (w : World R Rt) (c : Context)
    (stderr : Writer) (tr0 : List (Event Rt)) (tpl : Template) (v : String)
    (earlier later : List (String × AWSServerlessFunction)) (name : String)
    (function : AWSServerlessFunction) (runt : Rt) (mux1 : R)
    (hlog : setupLogger w c = .ok (stderr, tr0))
    (hopen : w.goformationOpen (w.getTemplateFilename c.template) = .ok tpl)
    (hdock : w.getDockerVersion = .ok v)
    (hfn : tpl.functions = earlier ++ (name, function) :: later)
    (hrunt : w.NewRuntime (runtimeOpt c stderr
      (chooseBaseDir w c (w.getTemplateFilename c.template)).1
      (chooseBaseDir w c (w.getTemplateFilename c.template)).2 name function) = .ok runt)
    (hadd : w.AddFunction
      (functionLoop w c stderr (chooseBaseDir w c (w.getTemplateFilename c.template)).1
        (chooseBaseDir w c (w.getTemplateFilename c.template)).2
        w.NewServerlessRouter earlier).1 function runt
      = (mux1, some .ErrNoEventsFound)) :
    let baseDir := (chooseBaseDir w c (w.getTemplateFilename c.template)).1
    let check := (chooseBaseDir w c (w.getTemplateFilename c.template)).2
    let before := functionLoop w c stderr baseDir check w.NewServerlessRouter earlier
    let after := functionLoop w c stderr baseDir check mux1 later
    let ignored : List (Event Rt) :=
      [.newRuntime (runtimeOpt c stderr baseDir check name function),
       .addFunction function runt,
       .logPrintf ("Ignoring " ++ name ++ " (" ++ function.Handler
          ++ ") as no API event sources are defined")]
    loopBody w c stderr baseDir check before.1 name function = (mux1, ignored)
    ∧ functionLoop w c stderr baseDir check w.NewServerlessRouter tpl.functions
        = (after.1, before.2 ++ ignored ++ after.2)
    ∧ newRuntimeCalls after.2
        = later.map (fun nf => runtimeOpt c stderr baseDir check nf.1 nf.2)
    ∧ start w c = afterLoop w c stderr baseDir check tpl.functions after.1
        (tr0 ++ connectedTrace (w.getTemplateFilename c.template) v
          ++ [.newServerlessRouter] ++ (before.2 ++ ignored ++ after.2)) := by
  intro baseDir check before after ignored
  have hbody : loopBody w c stderr baseDir check before.1 name function = (mux1, ignored) := by
    have hadd1 : w.AddFunction before.1 function runt = (mux1, some .ErrNoEventsFound) := hadd
    rw [loopBody_ok w c stderr baseDir check before.1 name function runt hrunt, hadd1]
    rfl
  have hloop : functionLoop w c stderr baseDir check w.NewServerlessRouter tpl.functions
      = (after.1, before.2 ++ ignored ++ after.2) := by
    rw [hfn, functionLoop_append]
    simp only [functionLoop]
    rw [hbody]
    simp only [List.append_assoc]
  refine ⟨hbody, hloop, newRuntimeCalls_functionLoop _ _ _ _ _ _ _, ?_⟩
  rw [start_eq_afterLoop w c stderr tr0 tpl v hlog hopen hdock]
  show afterLoop w c stderr baseDir check tpl.functions
    (functionLoop w c stderr baseDir check w.NewServerlessRouter tpl.functions).1
    (tr0 ++ connectedTrace (w.getTemplateFilename c.template) v ++ [.newServerlessRouter]
      ++ (functionLoop w c stderr baseDir check w.NewServerlessRouter tpl.functions).2) = _
  rw [hloop]

/-- C2: in a run that got past the docker check, `http.ListenAndServe` is
reached if and only if the router reports at least one mount once the loop is
over; when it reports none, the run ends with one write to `stderr`, the text
`ERROR: No Serverless functions were found in your SAM template.` when the
template has no function and `ERROR: None of the Serverless functions in your
SAM template were able to be mounted. See above for errors.` otherwise, followed
by `os.Exit(1)`, with no `AddStaticDir` call, no `getWorkingDir` call and no
listener. -/
theorem C2_listener_iff_some_mount (w : World R Rt) (c : Context)
    (stderr : Writer) (tr0 : List (Event Rt)) (tpl : Template) (v : String)
    (hlog : setupLogger w c = .ok (stderr, tr0))
    (hopen : w.goformationOpen (w.getTemplateFilename c.template) = .ok tpl)
    (hdock : w.getDockerVersion = .ok v) :
    let loop := functionLoop w c stderr
      (chooseBaseDir w c (w.getTemplateFilename c.template)).1
      (chooseBaseDir w c (w.getTemplateFilename c.template)).2
      w.NewServerlessRouter tpl.functions
    ((∃ addr, .listenAndServe addr ∈ (start w c).trace) ↔ 1 ≤ (w.Mounts loop.1).length)
    ∧ ((∃ addr mux, (start w c).outcome = .serving addr mux) ↔ 1 ≤ (w.Mounts loop.1).length)
    ∧ ((w.Mounts loop.1).length = 0 →
        (start w c).outcome = .exited 1
        ∧ (start w c).trace =
            tr0 ++ connectedTrace (w.getTemplateFilename c.template) v
              ++ [.newServerlessRouter] ++ loop.2
              ++ [.fprintf stderr
                    (if tpl.functions.length = 0
                      then "ERROR: No Serverless functions were found in your SAM template.\n"
                      else "ERROR: None of the Serverless functions in your SAM template were able to be mounted. See above for errors.\n"),
                  .osExit 1]
        ∧ (∀ dir mountPoint, .addStaticDir dir mountPoint ∉ (start w c).trace)
        ∧ (∀ basedir dir check, .getWorkingDir basedir dir check ∉ (start w c).trace)
        ∧ (∀ addr, .listenAndServe addr ∉ (start w c).trace)) := by
  intro loop
  have hstart := start_eq_afterLoop w c stderr tr0 tpl v hlog hopen hdock
  have hpre := afterLoopOnly_before_check w c stderr tr0 hlog
    (w.getTemplateFilename c.template) v
    (chooseBaseDir w c (w.getTemplateFilename c.template)).1
    (chooseBaseDir w c (w.getTemplateFilename c.template)).2
    w.NewServerlessRouter tpl.functions
  have hzero : (w.Mounts loop.1).length = 0 →
      (start w c).outcome = .exited 1
      ∧ (start w c).trace =
          tr0 ++ connectedTrace (w.getTemplateFilename c.template) v
            ++ [.newServerlessRouter] ++ loop.2
            ++ [.fprintf stderr
                  (if tpl.functions.length = 0
                    then "ERROR: No Serverless functions were found in your SAM template.\n"
                    else "ERROR: None of the Serverless functions in your SAM template were able to be mounted. See above for errors.\n"),
                .osExit 1]
      ∧ (∀ dir mountPoint, .addStaticDir dir mountPoint ∉ (start w c).trace)
      ∧ (∀ basedir dir check, .getWorkingDir basedir dir check ∉ (start w c).trace)
      ∧ (∀ addr, .listenAndServe addr ∉ (start w c).trace) := by
    intro hz
    have hnil : w.Mounts loop.1 = [] := List.length_eq_zero.mp hz
    have htext : (if tpl.functions = [] then noFunctionsMsg else noneMountedMsg) =
        (if tpl.functions.length = 0
          then "ERROR: No Serverless functions were found in your SAM template.\n"
          else "ERROR: None of the Serverless functions in your SAM template were able to be mounted. See above for errors.\n") := by
      cases tpl.functions with
      | nil => rfl
      | cons x xs => rfl
    rw [hstart, afterLoop_no_mounts _ _ _ _ _ _ _ _ hnil, htext]
    refine ⟨rfl, rfl, ?_, ?_, ?_⟩
    · intro dir mountPoint hmem
      rcases List.mem_append.mp hmem with h | h
      · exact Bool.noConfusion (hpre _ h)
      · simp at h
    · intro basedir dir check hmem
      rcases List.mem_append.mp hmem with h | h
      · exact Bool.noConfusion (hpre _ h)
      · simp at h
    · intro addr hmem
      rcases List.mem_append.mp hmem with h | h
      · exact Bool.noConfusion (hpre _ h)
      · simp at h
  have hpos : 1 ≤ (w.Mounts loop.1).length →
      .listenAndServe (listenAddr c) ∈ (start w c).trace
      ∧ ∃ addr mux, (start w c).outcome = .serving addr mux := by
    intro hp
    have hne : w.Mounts loop.1 ≠ [] := by
      intro h
      rw [h] at hp
      exact absurd hp (by decide)
    rw [hstart, afterLoop_mounts _ _ _ _ _ _ _ _ hne]
    exact ⟨by simp, _, _, rfl⟩
  refine ⟨⟨?_, fun hp => ⟨_, (hpos hp).1⟩⟩, ⟨?_, fun hp => (hpos hp).2⟩, hzero⟩
  · rintro ⟨addr, hmem⟩
    by_contra hlt
    exact (hzero (by omega)).2.2.2.2 addr hmem
  · rintro ⟨addr, mux, hout⟩
    by_contra hlt
    rw [(hzero (by omega)).1] at hout
    cases hout

/-- C10: in a run that got past the docker check and in which the router reports
no mount once the loop is over, `start` exits with status 1 after exactly one
`fmt.Fprintf` write, to `stderr`: the text `ERROR: No Serverless functions were
found in your SAM template.` if and only if the template has no function, and
`ERROR: None of the Serverless functions in your SAM template were able to be
mounted. See above for errors.` otherwise.  No `getWorkingDir` or `AddStaticDir`
call is made, and the run is the same whatever the `static-dir` option is. -/
theorem C10_diagnostic_by_function_count (w : World R Rt) (c : Context)
    (stderr : Writer) (tr0 : List (Event Rt)) (tpl : Template) (v : String)
    (hlog : setupLogger w c = .ok (stderr, tr0))
    (hopen : w.goformationOpen (w.getTemplateFilename c.template) = .ok tpl)
    (hdock : w.getDockerVersion = .ok v)
    (hzero : (w.Mounts (functionLoop w c stderr
      (chooseBaseDir w c (w.getTemplateFilename c.template)).1
      (chooseBaseDir w c (w.getTemplateFilename c.template)).2
      w.NewServerlessRouter tpl.functions).1).length = 0) :
    let noFunctions := "ERROR: No Serverless functions were found in your SAM template.\n"
    let noneMounted := "ERROR: None of the Serverless functions in your SAM template were able to be mounted. See above for errors.\n"
    (start w c).outcome = .exited 1
    ∧ (∃ before, (start w c).trace = before ++
        [.fprintf stderr (if tpl.functions.length = 0 then noFunctions else noneMounted),
         .osExit 1])
    ∧ fprintfWrites (start w c).trace =
        [(stderr, if tpl.functions.length = 0 then noFunctions else noneMounted)]
    ∧ (.fprintf stderr noFunctions ∈ (start w c).trace ↔ tpl.functions.length = 0)
    ∧ (.fprintf stderr noneMounted ∈ (start w c).trace ↔ tpl.functions.length ≠ 0)
    ∧ (∀ basedir dir check, .getWorkingDir basedir dir check ∉ (start w c).trace)
    ∧ (∀ dir mountPoint, .addStaticDir dir mountPoint ∉ (start w c).trace)
    ∧ (∀ staticDir, start w { c with staticDir := staticDir } = start w c) := by
  intro noFunctions noneMounted
  have hne : noFunctions ≠ noneMounted := by decide
  have hnil := List.length_eq_zero.mp hzero
  have hstart := start_eq_afterLoop w c stderr tr0 tpl v hlog hopen hdock
  rw [afterLoop_no_mounts _ _ _ _ _ _ _ _ hnil] at hstart
  have hpre := afterLoopOnly_before_check w c stderr tr0 hlog
    (w.getTemplateFilename c.template) v
    (chooseBaseDir w c (w.getTemplateFilename c.template)).1
    (chooseBaseDir w c (w.getTemplateFilename c.template)).2
    w.NewServerlessRouter tpl.functions
  have hmsg : (if tpl.functions = [] then noFunctionsMsg else noneMountedMsg)
      = (if tpl.functions.length = 0 then noFunctions else noneMounted) := by
    by_cases h : tpl.functions = []
    · rw [if_pos h, if_pos (by rw [h]; rfl)]; rfl
    · rw [if_neg h, if_neg (fun h0 => h (List.length_eq_zero.mp h0))]; rfl
  rw [hmsg] at hstart
  have hwrites : fprintfWrites (start w c).trace =
      [(stderr, if tpl.functions.length = 0 then noFunctions else noneMounted)] := by
    have htrace : (start w c).trace =
        (tr0 ++ connectedTrace (w.getTemplateFilename c.template) v ++ [.newServerlessRouter]
          ++ (functionLoop w c stderr
            (chooseBaseDir w c (w.getTemplateFilename c.template)).1
            (chooseBaseDir w c (w.getTemplateFilename c.template)).2
            w.NewServerlessRouter tpl.functions).2)
        ++ [.fprintf stderr (if tpl.functions.length = 0 then noFunctions else noneMounted),
            .osExit 1] := by
      rw [hstart]
    rw [htrace, fprintfWrites_append, fprintfWrites_of_afterLoopOnly _ hpre]
    rfl
  have hmem : ∀ msg, .fprintf stderr msg ∈ (start w c).trace ↔
      msg = (if tpl.functions.length = 0 then noFunctions else noneMounted) := by
    intro msg
    constructor
    · intro h
      have h2 : (stderr, msg) ∈ fprintfWrites (start w c).trace :=
        List.mem_filterMap.mpr ⟨_, h, rfl⟩
      rw [hwrites] at h2
      simp only [List.mem_singleton, Prod.mk.injEq, true_and] at h2
      exact h2
    · intro h
      rw [hstart, h]
      simp
  refine ⟨by rw [hstart], ⟨_, by rw [hstart]⟩, hwrites, ?_, ?_, ?_, ?_, ?_⟩
  · rw [hmem]
    by_cases h : tpl.functions.length = 0
    · simp [h]
    · simp only [h, if_false, iff_false]
      exact hne
  · rw [hmem]
    by_cases h : tpl.functions.length = 0
    · simp only [h, if_true, ne_eq, not_true_eq_false, iff_false]
      exact fun h2 => hne h2.symm
    · simp [h]
  · intro basedir dir check hmem2
    rw [hstart] at hmem2
    rcases List.mem_append.mp hmem2 with h | h
    · exact Bool.noConfusion (hpre _ h)
    · simp at h
  · intro dir mountPoint hmem2
    rw [hstart] at hmem2
    rcases List.mem_append.mp hmem2 with h | h
    · exact Bool.noConfusion (hpre _ h)
    · simp at h
  · intro staticDir
    have hloop : functionLoop w { c with staticDir := staticDir } stderr
        (chooseBaseDir w c (w.getTemplateFilename c.template)).1
        (chooseBaseDir w c (w.getTemplateFilename c.template)).2
        w.NewServerlessRouter tpl.functions
        = functionLoop w c stderr
        (chooseBaseDir w c (w.getTemplateFilename c.template)).1
        (chooseBaseDir w c (w.getTemplateFilename c.template)).2
        w.NewServerlessRouter tpl.functions :=
      functionLoop_congr w _ c stderr _ _ _ _ rfl rfl
    have hstart2 := start_eq_afterLoop w { c with staticDir := staticDir } stderr tr0 tpl v
      hlog hopen hdock
    have hdir : chooseBaseDir w { c with staticDir := staticDir }
        (w.getTemplateFilename c.template)
        = chooseBaseDir w c (w.getTemplateFilename c.template) := rfl
    simp only [hdir, hloop] at hstart2
    rw [afterLoop_no_mounts _ _ _ _ _ _ _ _ hnil, hmsg] at hstart2
    rw [hstart2, hstart]

/-- C5: if `goformation.Open` returns an error, or `getDockerVersion` returns an
error, `start` exits with status 1 after a diagnostic (a `log.Fatalf`, or
`log.Printf` lines followed by `os.Exit(1)`), and the run creates no router,
calls neither `NewRuntime` nor `AddFunction`, and starts no listener.  When the
log destination was set up, the run is exactly: parse attempt and
`Failed to parse template`; or parse, docker check, the two docker lines and
`os.Exit(1)`.  In every run, a docker check is preceded by a successful template
parse. -/
theorem C5_parse_or_docker_failure_stops_before_router (w : World R Rt) (c : Context) :
    (((∃ err, w.goformationOpen (w.getTemplateFilename c.template) = .error err)
        ∨ (∃ err, w.getDockerVersion = .error err)) →
      (start w c).outcome = .exited 1
      ∧ ((∃ msg, .logFatalf msg ∈ (start w c).trace)
          ∨ ((∃ msg, .logPrintf msg ∈ (start w c).trace) ∧ .osExit 1 ∈ (start w c).trace))
      ∧ .newServerlessRouter ∉ (start w c).trace
      ∧ (∀ opt, .newRuntime opt ∉ (start w c).trace)
      ∧ (∀ function runt, .addFunction function runt ∉ (start w c).trace)
      ∧ (∀ addr, .listenAndServe addr ∉ (start w c).trace))
    ∧ (∀ stderr tr0 err, setupLogger w c = .ok (stderr, tr0) →
        w.goformationOpen (w.getTemplateFilename c.template) = .error err →
        (start w c).trace = tr0 ++
          [.goformationOpen (w.getTemplateFilename c.template),
           .logFatalf ("Failed to parse template: " ++ err ++ "\n")])
    ∧ (∀ stderr tr0 tpl err, setupLogger w c = .ok (stderr, tr0) →
        w.goformationOpen (w.getTemplateFilename c.template) = .ok tpl →
        w.getDockerVersion = .error err →
        (start w c).trace = tr0 ++
          [.goformationOpen (w.getTemplateFilename c.template), .getDockerVersion,
           .logPrintf "Running AWS SAM projects locally requires Docker. Have you got it installed?\n",
           .logPrintf (err ++ "\n"), .osExit 1])
    ∧ (.getDockerVersion ∈ (start w c).trace →
        ∃ tpl before after,
          w.goformationOpen (w.getTemplateFilename c.template) = .ok tpl
          ∧ (start w c).trace = before ++
              .goformationOpen (w.getTemplateFilename c.template) :: .getDockerVersion :: after) := by
  refine ⟨?_, ?_, ?_, ?_⟩
  · intro hfail
    rcases start_connected_or_exited w c with ⟨stderr, tr0, tpl, v, -, hopen, hdock⟩ | ⟨hout, hall⟩
    · rcases hfail with ⟨err, h⟩ | ⟨err, h⟩
      · rw [hopen] at h; cases h
      · rw [hdock] at h; cases h
    · refine ⟨hout, ?_, fun h => Bool.noConfusion (hall _ h),
        fun _ h => Bool.noConfusion (hall _ h), fun _ _ h => Bool.noConfusion (hall _ h),
        fun _ h => Bool.noConfusion (hall _ h)⟩
      rcases start_cases w c with ⟨p, err, -, hs⟩ | ⟨stderr, tr0, err, -, -, hs⟩
        | ⟨stderr, tr0, tpl, err, -, -, -, hs⟩ | ⟨stderr, tr0, tpl, v, -, hopen, hdock⟩
      · left; rw [hs]; exact ⟨err, by simp⟩
      · left; rw [hs]; exact ⟨"Failed to parse template: " ++ err ++ "\n", by simp⟩
      · right; rw [hs]; exact ⟨⟨err ++ "\n", by simp⟩, by simp⟩
      · rcases hfail with ⟨err, h⟩ | ⟨err, h⟩
        · rw [hopen] at h; cases h
        · rw [hdock] at h; cases h
  · intro stderr tr0 err hlog hopen
    simp only [start, hlog, hopen]
  · intro stderr tr0 tpl err hlog hopen hdock
    simp only [start, hlog, hopen, hdock]
  · intro hmem
    rcases start_cases w c with ⟨p, err, -, hs⟩ | ⟨stderr, tr0, err, hlog, -, hs⟩
      | ⟨stderr, tr0, tpl, err, -, hopen, -, hs⟩ | ⟨stderr, tr0, tpl, v, hlog, hopen, hdock⟩
    · rw [hs] at hmem
      simp at hmem
    · rw [hs] at hmem
      simp only [List.mem_append, List.mem_cons, List.mem_singleton, List.not_mem_nil,
        or_false, reduceCtorEq, or_self] at hmem
      rcases mem_setupLogger w c stderr tr0 hlog _ hmem with ⟨_, h⟩ | ⟨_, h⟩ <;> cases h
    · exact ⟨tpl, tr0, _, hopen, by rw [hs]⟩
    · obtain ⟨rest, hrest⟩ := afterLoop_trace_extends w c stderr
        (chooseBaseDir w c (w.getTemplateFilename c.template)).1
        (chooseBaseDir w c (w.getTemplateFilename c.template)).2 tpl.functions
        (functionLoop w c stderr (chooseBaseDir w c (w.getTemplateFilename c.template)).1
          (chooseBaseDir w c (w.getTemplateFilename c.template)).2
          w.NewServerlessRouter tpl.functions).1
        (tr0 ++ connectedTrace (w.getTemplateFilename c.template) v ++ [.newServerlessRouter]
          ++ (functionLoop w c stderr (chooseBaseDir w c (w.getTemplateFilename c.template)).1
            (chooseBaseDir w c (w.getTemplateFilename c.template)).2
            w.NewServerlessRouter tpl.functions).2)
      refine ⟨tpl, tr0, .logPrintf ("Connected to Docker " ++ v) :: .newServerlessRouter ::
        ((functionLoop w c stderr (chooseBaseDir w c (w.getTemplateFilename c.template)).1
          (chooseBaseDir w c (w.getTemplateFilename c.template)).2
          w.NewServerlessRouter tpl.functions).2 ++ rest), hopen, ?_⟩
      rw [start_eq_afterLoop w c stderr tr0 tpl v hlog hopen hdock, hrest]
      simp only [connectedTrace, List.append_assoc, List.cons_append, List.nil_append]

/-- C7: when `start` reaches the listener, with address `addr` and router `mux`
(the router whose `Mounts()` line 115 enumerates), `addr` is
`host + ":" + port`, and the trace ends with one write to the process standard
error per element of `mux.Mounts()`, in the order of that list, the line for
mount `m` being `Mounting <m.Function.Handler> (<m.Function.Runtime>) at
http://<host>:<port><m.Path> <m.Methods()>` followed by a newline, then the
closing banner, then `http.ListenAndServe(host + ":" + port)`.  Before the
summary the only `fmt.Fprintf` writes are the blank line of line 102 and, when a
static directory was mounted, the line announcing it. -/
theorem C7_mount_summary_lines (w : World R Rt) (c : Context) (addr : String) (mux : R)
    (hreach : (start w c).outcome = .serving addr mux) :
    addr = c.host ++ ":" ++ c.port
    ∧ ∃ stderr before,
        (start w c).trace =
          before
          ++ (w.Mounts mux).map (fun m => Event.fprintf .osStderr
              ("Mounting " ++ m.Function.Handler ++ " (" ++ m.Function.Runtime
                ++ ") at http://" ++ c.host ++ ":" ++ c.port ++ m.Path ++ " "
                ++ fmtStrings m.Methods ++ "\n"))
          ++ banner stderr
          ++ [.listenAndServe (c.host ++ ":" ++ c.port)]
        ∧ ∀ wr msg, Event.fprintf wr msg ∈ before →
            (wr = stderr ∧ msg = "\n")
            ∨ (wr = .osStderr
                ∧ ∃ dir, msg = "Mounting static files from " ++ dir ++ " at /\n") := by
  rcases start_exited_or_mounted w c with ⟨hout, -⟩ | ⟨stderr, tr0, tpl, v, hlog, hopen, hdock, hm⟩
  · rw [hout] at hreach
    cases hreach
  · have hs := start_serving w c stderr tr0 tpl v hlog hopen hdock hm
    rw [hs] at hreach
    simp only [Outcome.serving.injEq] at hreach
    obtain ⟨haddr, hmux⟩ := hreach
    subst hmux
    refine ⟨haddr.symm, stderr,
      (tr0 ++ connectedTrace (w.getTemplateFilename c.template) v ++ [.newServerlessRouter]
          ++ (functionLoop w c stderr
            (chooseBaseDir w c (w.getTemplateFilename c.template)).1
            (chooseBaseDir w c (w.getTemplateFilename c.template)).2
            w.NewServerlessRouter tpl.functions).2)
        ++ [.fprintf stderr "\n"]
        ++ (mountStatic w c (chooseBaseDir w c (w.getTemplateFilename c.template)).1
            (chooseBaseDir w c (w.getTemplateFilename c.template)).2
            (functionLoop w c stderr
              (chooseBaseDir w c (w.getTemplateFilename c.template)).1
              (chooseBaseDir w c (w.getTemplateFilename c.template)).2
              w.NewServerlessRouter tpl.functions).1).2, ?_, ?_⟩
    · rw [hs]
      rfl
    · intro wr msg hmem
      simp only [List.mem_append, List.mem_singleton] at hmem
      rcases hmem with (h | h) | h
      · have h1 := afterLoopOnly_before_check w c stderr tr0 hlog _ _ _ _ _ _ _
          (by simpa only [List.mem_append, List.mem_singleton] using h)
        cases h1
      · simp only [Event.fprintf.injEq] at h
        exact Or.inl h
      · obtain ⟨-, h2 | ⟨err, -, h2⟩ | ⟨dir, -, h2 | h2⟩⟩ := mem_mountStatic w c _ _ _ _ h
        · cases h2
        · cases h2
        · simp only [Event.fprintf.injEq] at h2
          exact Or.inr ⟨h2.1, dir, h2.2⟩
        · cases h2

/-- C9: the base directory and the `checkWorkingDirExist` flag are decided by
the `docker-volume-basedir` option: when it is empty they are
`filepath.Dir(filename)`, for the resolved template filename, and `true`; when it
is not empty they are the option value and `false`.  In every run, each
`NewRuntime` call receives that pair as `Basedir` and `CheckWorkingDirExist`,
and each `getWorkingDir` call receives it as first and third argument, the
second being the `static-dir` option.  The calls are made: a run that got past
the docker check calls `NewRuntime` once per function of the template with that
pair, and a run that got past the mount check with a non-empty `static-dir`
calls `getWorkingDir` exactly once, with that pair. -/
theorem C9_base_directory_choice (w : World R Rt) (c : Context) :
    (c.dockerVolumeBasedir = "" →
      chooseBaseDir w c (w.getTemplateFilename c.template)
        = (w.filepathDir (w.getTemplateFilename c.template), true))
    ∧ (c.dockerVolumeBasedir ≠ "" →
      chooseBaseDir w c (w.getTemplateFilename c.template) = (c.dockerVolumeBasedir, false))
    ∧ (∀ opt, .newRuntime opt ∈ (start w c).trace →
        opt.Basedir = (chooseBaseDir w c (w.getTemplateFilename c.template)).1
        ∧ opt.CheckWorkingDirExist = (chooseBaseDir w c (w.getTemplateFilename c.template)).2)
    ∧ (∀ basedir dir check, .getWorkingDir basedir dir check ∈ (start w c).trace →
        basedir = (chooseBaseDir w c (w.getTemplateFilename c.template)).1
        ∧ dir = c.staticDir
        ∧ check = (chooseBaseDir w c (w.getTemplateFilename c.template)).2)
    ∧ (∀ stderr tr0 tpl v, setupLogger w c = .ok (stderr, tr0) →
        w.goformationOpen (w.getTemplateFilename c.template) = .ok tpl →
        w.getDockerVersion = .ok v →
        newRuntimeCalls (start w c).trace =
          tpl.functions.map (fun nf =>
            { LogicalID := nf.1, Function := nf.2, Logger := stderr,
              EnvOverrideFile := c.envVars,
              Basedir :=
                if c.dockerVolumeBasedir = ""
                  then w.filepathDir (w.getTemplateFilename c.template)
                  else c.dockerVolumeBasedir,
              CheckWorkingDirExist := decide (c.dockerVolumeBasedir = ""),
              DebugPort := c.debugPort }))
    ∧ (∀ stderr tr0 tpl v, setupLogger w c = .ok (stderr, tr0) →
        w.goformationOpen (w.getTemplateFilename c.template) = .ok tpl →
        w.getDockerVersion = .ok v →
        w.Mounts (functionLoop w c stderr
          (chooseBaseDir w c (w.getTemplateFilename c.template)).1
          (chooseBaseDir w c (w.getTemplateFilename c.template)).2
          w.NewServerlessRouter tpl.functions).1 ≠ [] →
        getWorkingDirCalls (start w c).trace =
          if c.staticDir = "" then []
          else [(if c.dockerVolumeBasedir = ""
                  then w.filepathDir (w.getTemplateFilename c.template)
                  else c.dockerVolumeBasedir,
                c.staticDir, decide (c.dockerVolumeBasedir = ""))]) := by
  have hpair : chooseBaseDir w c (w.getTemplateFilename c.template) =
      (if c.dockerVolumeBasedir = ""
          then w.filepathDir (w.getTemplateFilename c.template)
          else c.dockerVolumeBasedir,
        decide (c.dockerVolumeBasedir = "")) := by
    by_cases h : c.dockerVolumeBasedir = ""
    · simp only [chooseBaseDir, h, if_true, decide_True]
    · simp only [chooseBaseDir, h, if_false, decide_False]
  refine ⟨?_, ?_, ?_, ?_, ?_, ?_⟩
  · intro h
    simp only [chooseBaseDir, h, if_true]
  · intro h
    simp only [chooseBaseDir, h, if_false]
  · intro opt hmem
    rcases start_connected_or_exited w c with ⟨stderr, tr0, tpl, v, hlog, hopen, hdock⟩ | ⟨-, hall⟩
    · have h1 := (mem_newRuntimeCalls _ _).mpr hmem
      rw [newRuntimeCalls_start w c stderr tr0 tpl v hlog hopen hdock] at h1
      obtain ⟨nf, -, rfl⟩ := List.mem_map.mp h1
      exact ⟨rfl, rfl⟩
    · exact Bool.noConfusion (hall _ hmem)
  · intro basedir dir check hmem
    rcases start_exited_or_mounted w c with ⟨-, hall⟩ | ⟨stderr, tr0, tpl, v, hlog, hopen, hdock, hm⟩
    · exact Bool.noConfusion (hall _ hmem)
    · rcases (mem_start_afterMountCheck w c stderr tr0 tpl v hlog hopen hdock hm
        (.getWorkingDir basedir dir check) rfl).mp hmem
        with h | h
      · obtain ⟨-, h2 | ⟨err, -, h2⟩ | ⟨d, -, h2 | h2⟩⟩ := mem_mountStatic w c _ _ _ _ h
        · simp only [Event.getWorkingDir.injEq] at h2
          exact h2
        · cases h2
        · cases h2
        · cases h2
      · cases h
  · intro stderr tr0 tpl v hlog hopen hdock
    rw [newRuntimeCalls_start w c stderr tr0 tpl v hlog hopen hdock, hpair]
    rfl
  · intro stderr tr0 tpl v hlog hopen hdock hm
    rw [getWorkingDirCalls_start w c stderr tr0 tpl v hlog hopen hdock hm, hpair]

/-- C8: the static directory is optional and never fatal.  In every run,
`AddStaticDir(dir, mountPoint)` is called if and only if `mountPoint` is `/`,
the `static-dir` option is not empty, and `getWorkingDir(baseDir, static-dir,
checkWorkingDirExist)` was called and returned `dir`; when the option is empty
there is no `getWorkingDir` and no `AddStaticDir` call; when the `getWorkingDir`
call fails, a `WARNING` is logged, `AddStaticDir` is not called and the listener
is started.  In a run that got past the mount check, `getWorkingDir` is called
if and only if the option is not empty, the static block is empty, or the call
and the warning, or the call, the announcement and `AddStaticDir`, and the
listener is started in all three cases. -/
theorem C8_static_dir_optional_and_non_fatal (w : World R Rt) (c : Context) :
    (∀ dir mountPoint, .addStaticDir dir mountPoint ∈ (start w c).trace ↔
        (mountPoint = "/" ∧ c.staticDir ≠ ""
          ∧ .getWorkingDir (chooseBaseDir w c (w.getTemplateFilename c.template)).1
              c.staticDir (chooseBaseDir w c (w.getTemplateFilename c.template)).2
            ∈ (start w c).trace
          ∧ w.getWorkingDir (chooseBaseDir w c (w.getTemplateFilename c.template)).1
              c.staticDir (chooseBaseDir w c (w.getTemplateFilename c.template)).2
            = .ok dir))
    ∧ (c.staticDir = "" →
        (∀ dir mountPoint, .addStaticDir dir mountPoint ∉ (start w c).trace)
        ∧ (∀ basedir dir check, .getWorkingDir basedir dir check ∉ (start w c).trace))
    ∧ (∀ err,
        .getWorkingDir (chooseBaseDir w c (w.getTemplateFilename c.template)).1
            c.staticDir (chooseBaseDir w c (w.getTemplateFilename c.template)).2
          ∈ (start w c).trace →
        w.getWorkingDir (chooseBaseDir w c (w.getTemplateFilename c.template)).1
            c.staticDir (chooseBaseDir w c (w.getTemplateFilename c.template)).2
          = .error err →
        .logPrintf ("WARNING: Could not mount static files: " ++ err ++ "\n")
            ∈ (start w c).trace
        ∧ (∀ dir mountPoint, .addStaticDir dir mountPoint ∉ (start w c).trace)
        ∧ .listenAndServe (c.host ++ ":" ++ c.port) ∈ (start w c).trace
        ∧ ∃ mux, (start w c).outcome = .serving (c.host ++ ":" ++ c.port) mux)
    ∧ (∀ stderr tr0 tpl v, setupLogger w c = .ok (stderr, tr0) →
        w.goformationOpen (w.getTemplateFilename c.template) = .ok tpl →
        w.getDockerVersion = .ok v →
        w.Mounts (functionLoop w c stderr
          (chooseBaseDir w c (w.getTemplateFilename c.template)).1
          (chooseBaseDir w c (w.getTemplateFilename c.template)).2
          w.NewServerlessRouter tpl.functions).1 ≠ [] →
        let baseDir := (chooseBaseDir w c (w.getTemplateFilename c.template)).1
        let check := (chooseBaseDir w c (w.getTemplateFilename c.template)).2
        let mux := (functionLoop w c stderr baseDir check w.NewServerlessRouter tpl.functions).1
        (.getWorkingDir baseDir c.staticDir check ∈ (start w c).trace ↔ c.staticDir ≠ "")
        ∧ (∀ dir mountPoint, .addStaticDir dir mountPoint ∈ (start w c).trace ↔
            (mountPoint = "/" ∧ c.staticDir ≠ ""
              ∧ w.getWorkingDir baseDir c.staticDir check = .ok dir))
        ∧ (start w c).outcome
            = .serving (c.host ++ ":" ++ c.port) (mountStatic w c baseDir check mux).1
        ∧ .listenAndServe (c.host ++ ":" ++ c.port) ∈ (start w c).trace
        ∧ (c.staticDir = "" → mountStatic w c baseDir check mux = (mux, []))
        ∧ (∀ err, c.staticDir ≠ "" → w.getWorkingDir baseDir c.staticDir check = .error err →
            mountStatic w c baseDir check mux =
              (mux, [.getWorkingDir baseDir c.staticDir check,
                .logPrintf ("WARNING: Could not mount static files: " ++ err ++ "\n")]))
        ∧ (∀ dir, c.staticDir ≠ "" → w.getWorkingDir baseDir c.staticDir check = .ok dir →
            mountStatic w c baseDir check mux =
              (w.AddStaticDir mux dir "/",
                [.getWorkingDir baseDir c.staticDir check,
                 .fprintf .osStderr ("Mounting static files from " ++ dir ++ " at /\n"),
                 .addStaticDir dir "/"]))) := by
  -- the run once the mount check is passed
  have hreach : ∀ stderr tr0 tpl v, setupLogger w c = .ok (stderr, tr0) →
      w.goformationOpen (w.getTemplateFilename c.template) = .ok tpl →
      w.getDockerVersion = .ok v →
      w.Mounts (functionLoop w c stderr
        (chooseBaseDir w c (w.getTemplateFilename c.template)).1
        (chooseBaseDir w c (w.getTemplateFilename c.template)).2
        w.NewServerlessRouter tpl.functions).1 ≠ [] →
      (.getWorkingDir (chooseBaseDir w c (w.getTemplateFilename c.template)).1 c.staticDir
          (chooseBaseDir w c (w.getTemplateFilename c.template)).2 ∈ (start w c).trace
        ↔ c.staticDir ≠ "")
      ∧ (∀ dir mountPoint, .addStaticDir dir mountPoint ∈ (start w c).trace ↔
          (mountPoint = "/" ∧ c.staticDir ≠ ""
            ∧ w.getWorkingDir (chooseBaseDir w c (w.getTemplateFilename c.template)).1
                c.staticDir (chooseBaseDir w c (w.getTemplateFilename c.template)).2
              = .ok dir))
      ∧ (∀ err, c.staticDir ≠ "" →
          w.getWorkingDir (chooseBaseDir w c (w.getTemplateFilename c.template)).1
            c.staticDir (chooseBaseDir w c (w.getTemplateFilename c.template)).2
            = .error err →
          .logPrintf ("WARNING: Could not mount static files: " ++ err ++ "\n")
            ∈ (start w c).trace)
      ∧ (start w c).outcome = .serving (c.host ++ ":" ++ c.port)
          (mountStatic w c (chooseBaseDir w c (w.getTemplateFilename c.template)).1
            (chooseBaseDir w c (w.getTemplateFilename c.template)).2
            (functionLoop w c stderr
              (chooseBaseDir w c (w.getTemplateFilename c.template)).1
              (chooseBaseDir w c (w.getTemplateFilename c.template)).2
              w.NewServerlessRouter tpl.functions).1).1
      ∧ .listenAndServe (c.host ++ ":" ++ c.port) ∈ (start w c).trace := by
    intro stderr tr0 tpl v hlog hopen hdock hm
    have hmemP := mem_start_afterMountCheck w c stderr tr0 tpl v hlog hopen hdock hm
    have hs := start_serving w c stderr tr0 tpl v hlog hopen hdock hm
    refine ⟨?_, ?_, ?_, by rw [hs]; rfl, (hmemP (.listenAndServe (listenAddr c)) rfl).mpr (Or.inr rfl)⟩
    · rw [hmemP (.getWorkingDir _ _ _) rfl]
      constructor
      · rintro (h | h)
        · exact (mem_mountStatic w c _ _ _ _ h).1
        · cases h
      · intro hne
        left
        cases hwd : w.getWorkingDir (chooseBaseDir w c (w.getTemplateFilename c.template)).1
            c.staticDir (chooseBaseDir w c (w.getTemplateFilename c.template)).2 with
        | error err => rw [mountStatic_error w c _ _ _ err hne hwd]; simp
        | ok dir => rw [mountStatic_ok w c _ _ _ dir hne hwd]; simp
    · intro dir mountPoint
      rw [hmemP (.addStaticDir dir mountPoint) rfl]
      constructor
      · rintro (h | h)
        · obtain ⟨hne, h2 | ⟨err, -, h2⟩ | ⟨d, hwd, h2 | h2⟩⟩ := mem_mountStatic w c _ _ _ _ h
          · cases h2
          · cases h2
          · cases h2
          · simp only [Event.addStaticDir.injEq] at h2
            obtain ⟨rfl, rfl⟩ := h2
            exact ⟨rfl, hne, hwd⟩
        · cases h
      · rintro ⟨rfl, hne, hwd⟩
        left
        rw [mountStatic_ok w c _ _ _ dir hne hwd]
        simp
    · intro err hne hwd
      rw [hs]
      simp only [List.mem_append]
      refine Or.inl (Or.inl (Or.inl (Or.inr ?_)))
      rw [mountStatic_error w c _ _ _ err hne hwd]
      simp
  refine ⟨?_, ?_, ?_, ?_⟩
  · intro dir mountPoint
    rcases start_exited_or_mounted w c with ⟨-, hall⟩ | ⟨stderr, tr0, tpl, v, hlog, hopen, hdock, hm⟩
    · constructor
      · intro h
        exact Bool.noConfusion (hall _ h)
      · rintro ⟨-, -, h, -⟩
        exact Bool.noConfusion (hall _ h)
    · obtain ⟨h1, h2, -⟩ := hreach stderr tr0 tpl v hlog hopen hdock hm
      rw [h2 dir mountPoint, h1]
      constructor
      · rintro ⟨a, b, d⟩
        exact ⟨a, b, b, d⟩
      · rintro ⟨a, b, -, d⟩
        exact ⟨a, b, d⟩
  · intro hempty
    rcases start_exited_or_mounted w c with ⟨-, hall⟩ | ⟨stderr, tr0, tpl, v, hlog, hopen, hdock, hm⟩
    · exact ⟨fun _ _ h => Bool.noConfusion (hall _ h), fun _ _ _ h => Bool.noConfusion (hall _ h)⟩
    · have hmemP := mem_start_afterMountCheck w c stderr tr0 tpl v hlog hopen hdock hm
      constructor
      · intro dir mountPoint h
        rcases (hmemP (.addStaticDir dir mountPoint) rfl).mp h with h | h
        · exact (mem_mountStatic w c _ _ _ _ h).1 hempty
        · cases h
      · intro basedir dir check h
        rcases (hmemP (.getWorkingDir basedir dir check) rfl).mp h with h | h
        · exact (mem_mountStatic w c _ _ _ _ h).1 hempty
        · cases h
  · intro err hcall hwd
    rcases start_exited_or_mounted w c with ⟨-, hall⟩ | ⟨stderr, tr0, tpl, v, hlog, hopen, hdock, hm⟩
    · exact Bool.noConfusion (hall _ hcall)
    · obtain ⟨h1, h2, h3, h4, h5⟩ := hreach stderr tr0 tpl v hlog hopen hdock hm
      refine ⟨h3 err (h1.mp hcall) hwd, ?_, h5, _, h4⟩
      intro dir mountPoint h
      obtain ⟨-, -, hok⟩ := (h2 dir mountPoint).mp h
      rw [hwd] at hok
      cases hok
  · intro stderr tr0 tpl v hlog hopen hdock hm baseDir check mux
    obtain ⟨h1, h2, -, h4, h5⟩ := hreach stderr tr0 tpl v hlog hopen hdock hm
    exact ⟨h1, h2, h4, h5, mountStatic_empty w c baseDir check mux,
      fun err hne hwd => mountStatic_error w c baseDir check mux err hne hwd,
      fun dir hne hwd => mountStatic_ok w c baseDir check mux dir hne hwd⟩

/-- C3 (the code at the failing input): the template declares `Hello`, which
mounts, and `Clash`, for which `AddFunction` returns an error other than
`router.ErrNoEventsFound`.  The run of `start` contains the `AddFunction` call for
`Clash` and then goes straight on: no log line and no write names `Clash`, and
the listener is started. -/
theorem C3_add_function_error_not_reported :
    (demoWorld conflictFns).AddFunction [helloMount] clashFn "Clash"
      = ([helloMount], some (.other "route conflict"))
    ∧ loopBody (demoWorld conflictFns) demoCtx .osStderr "." true [helloMount] "Clash" clashFn
      = ([helloMount],
          [.newRuntime (runtimeOpt demoCtx .osStderr "." true "Clash" clashFn),
           .addFunction clashFn "Clash"])
    ∧ (start (demoWorld conflictFns) demoCtx).trace =
        [.goformationOpen "template.yaml", .getDockerVersion,
         .logPrintf "Connected to Docker 17.09", .newServerlessRouter,
         .newRuntime (runtimeOpt demoCtx .osStderr "." true "Hello" helloFn),
         .addFunction helloFn "Hello",
         .newRuntime (runtimeOpt demoCtx .osStderr "." true "Clash" clashFn),
         .addFunction clashFn "Clash",
         .fprintf .osStderr "\n",
         .fprintf .osStderr
           "Mounting app.handler (nodejs6.10) at http://127.0.0.1:3000/app.handler [GET]\n",
         .fprintf .osStderr "\n",
         .fprintf .osStderr "You can now browse to the above endpoints to invoke your functions.\n",
         .fprintf .osStderr "You do not need to restart/reload SAM CLI while working on your functions,\n",
         .fprintf .osStderr "changes will be reflected instantly/automatically. You only need to restart\n",
         .fprintf .osStderr "SAM CLI if you update your AWS SAM template.\n",
         .fprintf .osStderr "\n",
         .listenAndServe "127.0.0.1:3000"] := by
  refine ⟨rfl, rfl, ?_⟩
  decide

/-- C6 at the example template: five `NewRuntime` calls, one per function, and
`AddFunction` calls for the three functions whose runtime was built. -/
theorem C6_witness :
    setupLogger (demoWorld demoFns) demoCtx = .ok (.osStderr, [])
    ∧ (newRuntimeCalls (start (demoWorld demoFns) demoCtx).trace).map
        (fun opt => (opt.LogicalID, opt.Function)) = demoFns
    ∧ addFunctionCalls (start (demoWorld demoFns) demoCtx).trace
        = [(helloFn, "Hello"), (cronFn, "Cron"), (clashFn, "Clash")] :=
  ⟨rfl,
   (C6_one_runtime_per_function (demoWorld demoFns) demoCtx .osStderr [] ⟨demoFns⟩ "17.09"
      rfl rfl rfl).1,
   (C6_one_runtime_per_function (demoWorld demoFns) demoCtx .osStderr [] ⟨demoFns⟩ "17.09"
      rfl rfl rfl).2.2⟩

/-- C1 at the example template, for `Cobol`, whose runtime is not supported. -/
theorem C1_witness :
    (demoWorld demoFns).NewRuntime (runtimeOpt demoCtx .osStderr "." true "Cobol" cobolFn)
      = .error .ErrRuntimeNotSupported
    ∧ (∀ mux : DemoRouter,
        loopBody (demoWorld demoFns) demoCtx .osStderr "." true mux "Cobol" cobolFn
          = (mux, [.newRuntime (runtimeOpt demoCtx .osStderr "." true "Cobol" cobolFn),
              .logPrintf "Ignoring Cobol (main) due to unsupported runtime (cobol)\n"]))
    ∧ (∀ nf ∈ demoFns,
        Event.newRuntime (runtimeOpt demoCtx .osStderr "." true nf.1 nf.2)
          ∈ (start (demoWorld demoFns) demoCtx).trace) :=
  ⟨rfl,
   (C1_runtime_error_skips_only_that_function (demoWorld demoFns) demoCtx .osStderr []
      ⟨demoFns⟩ "17.09" [("Hello", helloFn)]
      [("Cron", cronFn), ("Clash", clashFn), ("Broken", brokenFn)] "Cobol" cobolFn
      .ErrRuntimeNotSupported rfl rfl rfl rfl rfl).1,
   fun nf hnf =>
    ((C1_runtime_error_skips_only_that_function (demoWorld demoFns) demoCtx .osStderr []
      ⟨demoFns⟩ "17.09" [("Hello", helloFn)]
      [("Cron", cronFn), ("Clash", clashFn), ("Broken", brokenFn)] "Cobol" cobolFn
      .ErrRuntimeNotSupported rfl rfl rfl rfl rfl).2.2.2 nf hnf).1⟩

/-- C4 at the example template, for `Cron`, which has no API event source. -/
theorem C4_witness :
    (demoWorld demoFns).AddFunction [helloMount] cronFn "Cron"
      = ([helloMount], some .ErrNoEventsFound)
    ∧ loopBody (demoWorld demoFns) demoCtx .osStderr "." true [helloMount] "Cron" cronFn
      = ([helloMount],
          [.newRuntime (runtimeOpt demoCtx .osStderr "." true "Cron" cronFn),
           .addFunction cronFn "Cron",
           .logPrintf "Ignoring Cron (cron.handler) as no API event sources are defined"])
    ∧ newRuntimeCalls (functionLoop (demoWorld demoFns) demoCtx .osStderr "." true
          [helloMount] [("Clash", clashFn), ("Broken", brokenFn)]).2
      = [runtimeOpt demoCtx .osStderr "." true "Clash" clashFn,
         runtimeOpt demoCtx .osStderr "." true "Broken" brokenFn] :=
  ⟨rfl,
   (C4_no_events_logged_once_and_loop_continues (demoWorld demoFns) demoCtx .osStderr []
      ⟨demoFns⟩ "17.09" [("Hello", helloFn), ("Cobol", cobolFn)]
      [("Clash", clashFn), ("Broken", brokenFn)] "Cron" cronFn "Cron" [helloMount]
      rfl rfl rfl rfl rfl rfl).1,
   (C4_no_events_logged_once_and_loop_continues (demoWorld demoFns) demoCtx .osStderr []
      ⟨demoFns⟩ "17.09" [("Hello", helloFn), ("Cobol", cobolFn)]
      [("Clash", clashFn), ("Broken", brokenFn)] "Cron" cronFn "Cron" [helloMount]
      rfl rfl rfl rfl rfl rfl).2.2.1⟩

/-- C2 at the example template (one mount: the listener is reached) and at a
template whose only function has an unsupported runtime (no mount: exit 1). -/
theorem C2_witness :
    (∃ addr, Event.listenAndServe addr ∈ (start (demoWorld demoFns) demoCtx).trace)
    ∧ (start (demoWorld [("Cobol", cobolFn)]) demoCtx).outcome = .exited 1
    ∧ (start (demoWorld [("Cobol", cobolFn)]) demoCtx).trace =
        [.goformationOpen "template.yaml", .getDockerVersion,
         .logPrintf "Connected to Docker 17.09", .newServerlessRouter,
         .newRuntime (runtimeOpt demoCtx .osStderr "." true "Cobol" cobolFn),
         .logPrintf "Ignoring Cobol (main) due to unsupported runtime (cobol)\n",
         .fprintf .osStderr "ERROR: None of the Serverless functions in your SAM template were able to be mounted. See above for errors.\n",
         .osExit 1]
    ∧ (∀ addr, Event.listenAndServe addr
        ∉ (start (demoWorld [("Cobol", cobolFn)]) demoCtx).trace) :=
  ⟨(C2_listener_iff_some_mount (demoWorld demoFns) demoCtx .osStderr [] ⟨demoFns⟩ "17.09"
      rfl rfl rfl).1.mpr (by decide),
   ((C2_listener_iff_some_mount (demoWorld [("Cobol", cobolFn)]) demoCtx .osStderr []
      ⟨[("Cobol", cobolFn)]⟩ "17.09" rfl rfl rfl).2.2 rfl).1,
   ((C2_listener_iff_some_mount (demoWorld [("Cobol", cobolFn)]) demoCtx .osStderr []
      ⟨[("Cobol", cobolFn)]⟩ "17.09" rfl rfl rfl).2.2 rfl).2.1,
   ((C2_listener_iff_some_mount (demoWorld [("Cobol", cobolFn)]) demoCtx .osStderr []
      ⟨[("Cobol", cobolFn)]⟩ "17.09" rfl rfl rfl).2.2 rfl).2.2.2.2⟩

/-- C10 at a template without functions and at a template whose only function
has an unsupported runtime. -/
theorem C10_witness :
    fprintfWrites (start (demoWorld []) demoCtx).trace
      = [(.osStderr, "ERROR: No Serverless functions were found in your SAM template.\n")]
    ∧ fprintfWrites (start (demoWorld [("Cobol", cobolFn)]) demoCtx).trace
      = [(.osStderr, "ERROR: None of the Serverless functions in your SAM template were able to be mounted. See above for errors.\n")]
    ∧ start (demoWorld [("Cobol", cobolFn)]) staticCtx
      = start (demoWorld [("Cobol", cobolFn)]) demoCtx :=
  ⟨(C10_diagnostic_by_function_count (demoWorld []) demoCtx .osStderr [] ⟨[]⟩ "17.09"
      rfl rfl rfl rfl).2.2.1,
   (C10_diagnostic_by_function_count (demoWorld [("Cobol", cobolFn)]) demoCtx .osStderr []
      ⟨[("Cobol", cobolFn)]⟩ "17.09" rfl rfl rfl rfl).2.2.1,
   (C10_diagnostic_by_function_count (demoWorld [("Cobol", cobolFn)]) demoCtx .osStderr []
      ⟨[("Cobol", cobolFn)]⟩ "17.09" rfl rfl rfl rfl).2.2.2.2.2.2.2 "public"⟩

/-- C5 at a world whose template does not parse and at a world without docker. -/
theorem C5_witness :
    (start badTemplateWorld demoCtx).outcome = .exited 1
    ∧ (start badTemplateWorld demoCtx).trace =
        [.goformationOpen "template.yaml",
         .logFatalf "Failed to parse template: yaml: line 3: could not find expected key\n"]
    ∧ (start noDockerWorld demoCtx).outcome = .exited 1
    ∧ (start noDockerWorld demoCtx).trace =
        [.goformationOpen "template.yaml", .getDockerVersion,
         .logPrintf "Running AWS SAM projects locally requires Docker. Have you got it installed?\n",
         .logPrintf "Cannot connect to the Docker daemon\n", .osExit 1]
    ∧ (∀ opt, Event.newRuntime opt ∉ (start noDockerWorld demoCtx).trace) :=
  ⟨((C5_parse_or_docker_failure_stops_before_router badTemplateWorld demoCtx).1
      (Or.inl ⟨_, rfl⟩)).1,
   (C5_parse_or_docker_failure_stops_before_router badTemplateWorld demoCtx).2.1
      .osStderr [] _ rfl rfl,
   ((C5_parse_or_docker_failure_stops_before_router noDockerWorld demoCtx).1
      (Or.inr ⟨_, rfl⟩)).1,
   (C5_parse_or_docker_failure_stops_before_router noDockerWorld demoCtx).2.2.1
      .osStderr [] ⟨demoFns⟩ _ rfl rfl rfl,
   ((C5_parse_or_docker_failure_stops_before_router noDockerWorld demoCtx).1
      (Or.inr ⟨_, rfl⟩)).2.2.2.1⟩

/-- C7 at the example template: one mount, one summary line. -/
theorem C7_witness :
    (start (demoWorld demoFns) demoCtx).outcome = .serving "127.0.0.1:3000" [helloMount]
    ∧ ∃ stderr before,
        (start (demoWorld demoFns) demoCtx).trace =
          before
          ++ [Event.fprintf .osStderr
              "Mounting app.handler (nodejs6.10) at http://127.0.0.1:3000/app.handler [GET]\n"]
          ++ banner stderr ++ [.listenAndServe "127.0.0.1:3000"] :=
  ⟨rfl,
   match (C7_mount_summary_lines (demoWorld demoFns) demoCtx "127.0.0.1:3000" [helloMount]
      rfl).2 with
   | ⟨stderr, before, h, _⟩ => ⟨stderr, before, h⟩⟩

/-- C8 with a static directory that resolves (mounted) and with one that does
not (warning, listener still started). -/
theorem C8_witness :
    Event.addStaticDir "./public" "/" ∈ (start (demoWorld demoFns) staticCtx).trace
    ∧ Event.logPrintf "WARNING: Could not mount static files: not found\n"
        ∈ (start (demoWorld demoFns) missingStaticCtx).trace
    ∧ Event.listenAndServe "127.0.0.1:3000"
        ∈ (start (demoWorld demoFns) missingStaticCtx).trace
    ∧ (∀ dir mountPoint, Event.addStaticDir dir mountPoint
        ∉ (start (demoWorld demoFns) demoCtx).trace) :=
  ⟨((C8_static_dir_optional_and_non_fatal (demoWorld demoFns) staticCtx).1 "./public" "/").mpr
      ⟨rfl, by decide, by decide, rfl⟩,
   ((C8_static_dir_optional_and_non_fatal (demoWorld demoFns) missingStaticCtx).2.2.1
      "not found" (by decide) rfl).1,
   ((C8_static_dir_optional_and_non_fatal (demoWorld demoFns) missingStaticCtx).2.2.1
      "not found" (by decide) rfl).2.2.1,
   ((C8_static_dir_optional_and_non_fatal (demoWorld demoFns) demoCtx).2.1 rfl).1⟩

/-- C9 with the option empty and with the option set to `/vol`: the pair, the
five `NewRuntime` calls that carry it, and the one `getWorkingDir` call that
carries it, with a static directory configured. -/
theorem C9_witness :
    chooseBaseDir (demoWorld demoFns) demoCtx "template.yaml" = (".", true)
    ∧ chooseBaseDir (demoWorld demoFns) volumeCtx "template.yaml" = ("/vol", false)
    ∧ (∀ opt, Event.newRuntime opt ∈ (start (demoWorld demoFns) volumeCtx).trace →
        opt.Basedir = "/vol" ∧ opt.CheckWorkingDirExist = false)
    ∧ newRuntimeCalls (start (demoWorld demoFns) volumeStaticCtx).trace =
        [⟨"Hello", helloFn, .osStderr, "", "/vol", false, ""⟩,
         ⟨"Cobol", cobolFn, .osStderr, "", "/vol", false, ""⟩,
         ⟨"Cron", cronFn, .osStderr, "", "/vol", false, ""⟩,
         ⟨"Clash", clashFn, .osStderr, "", "/vol", false, ""⟩,
         ⟨"Broken", brokenFn, .osStderr, "", "/vol", false, ""⟩]
    ∧ getWorkingDirCalls (start (demoWorld demoFns) volumeStaticCtx).trace
        = [("/vol", "public", false)]
    ∧ getWorkingDirCalls (start (demoWorld demoFns) staticCtx).trace
        = [(".", "public", true)] :=
  ⟨(C9_base_directory_choice (demoWorld demoFns) demoCtx).1 rfl,
   (C9_base_directory_choice (demoWorld demoFns) volumeCtx).2.1 (by decide),
   (C9_base_directory_choice (demoWorld demoFns) volumeCtx).2.2.1,
   (C9_base_directory_choice (demoWorld demoFns) volumeStaticCtx).2.2.2.2.1
      .osStderr [] ⟨demoFns⟩ "17.09" rfl rfl rfl,
   (C9_base_directory_choice (demoWorld demoFns) volumeStaticCtx).2.2.2.2.2
      .osStderr [] ⟨demoFns⟩ "17.09" rfl rfl rfl (by decide),
   (C9_base_directory_choice (demoWorld demoFns) staticCtx).2.2.2.2.2
      .osStderr [] ⟨demoFns⟩ "17.09" rfl rfl rfl (by decide)⟩

end Claims

end SamLocal
